import Mathlib

/-!
# FlutterWebviewHandler

A shallow embedding of `linux/flutter_webview_handler.cc`.

The handler is a C++ object whose methods run on the single CEF UI thread.  Each
method is embedded as a function from the handler's fields (plus the method's
arguments) to the new fields, the return value and the list of externally
visible effects the call performs, in program order.  Every effect is recorded
together with the handler fields as they are at the moment the effect happens,
so that statements such as "the handle is already cleared when the callback
runs" can be phrased.

Conventions.
* `int` values are `Int`; the source only compares and copies them.
* `CefRefPtr<CefBrowser>` is `Option Browser`, `none` being `nullptr`.  Where the
  source dereferences an argument supplied by the engine (`frame->IsMain()`,
  `message->GetName()`, `parentBrowser->GetMainFrame()`, `browser->GetHost()` in
  `OnPaint`) the argument is embedded as the pointee.
* `browser_->GetHost()` in `CloseBrowser` dereferences the handler's own field;
  when it is null the call faults and the embedding returns `none`.
* `std::function<void()>` is `Option CallbackId`, `none` being the empty function.
  The host callbacks fixed at construction (`on_paint_begin_`, ...) appear only
  as effect labels.
* `VLOG(1)` tracing is not recorded; `LOG(WARNING)` and `LOG(ERROR)` are.
* The renderer (`renderer_`), the message kind constant and the message reader
  live outside this file of the repository and are parameters (`Env`).
* `OnLoadingProgressChange` converts a `double` and writes no field; it is not
  embedded.
* A run (`exec`, `effects`) delivers events one after the other and ends at the
  first call that faults.
-/

namespace FlutterLinuxWebview

/-- Session identifier type `WebviewId`. -/
abbrev WebviewId := Int

/-- Identity of a live `CefBrowser` object. -/
abbrev Browser := Nat

/-- Nullable reference `CefRefPtr<CefBrowser>`. -/
abbrev CefRefPtr := Option Browser

/-- Identity of a non-empty `std::function<void()>`. -/
abbrev CallbackId := Nat

/-- Possibly empty `std::function<void()>`. -/
abbrev Callback := Option CallbackId

/-- Pixel buffer lent to `OnPaint`. -/
abbrev Buffer := List Nat

/-- Lifecycle states, `enum class BrowserState`. -/
inductive BrowserState where
  | kBeforeCreated
  | kCreated
  | kReady
  | kClosing
  | kClosed
  deriving DecidableEq, Repr

/-- Paint element kinds, `cef_paint_element_type_t`. -/
inductive PaintElementType where
  | PET_VIEW
  | PET_POPUP
  deriving DecidableEq, Repr

/-- Rectangle type `CefRect`. -/
structure CefRect where
  x : Int
  y : Int
  width : Int
  height : Int
  deriving DecidableEq, Repr

/-- Emptiness test `CefRect::IsEmpty()` of the CEF headers: `width <= 0 || height <= 0`. -/
def CefRect.IsEmpty (r : CefRect) : Bool :=
  decide (r.width ≤ 0) || decide (r.height ≤ 0)

/-- The part of a `CefFrame` the handler reads. -/
structure CefFrame where
  IsMain : Bool
  GetURL : String
  deriving DecidableEq, Repr

/-- One value of a process message's argument list. -/
inductive CefValue where
  | int (v : Int)
  | bool (v : Bool)
  | string (v : String)
  deriving DecidableEq, Repr

/-- The part of a `CefProcessMessage` the handler reads: its name and argument list. -/
structure CefProcessMessage where
  GetName : String
  GetArgumentList : List CefValue
  deriving DecidableEq, Repr

/-- The five out-parameters filled by `Read_FrameHostMsg_RunJavascriptResponse`. -/
structure JsResponse where
  js_run_id : Int
  was_executed : Bool
  is_exception : Bool
  js_result : String
  is_undefined : Bool
  deriving DecidableEq, Repr

/-- The part of `WebviewCreationParams` that is data (the callbacks are effect labels). -/
structure WebviewCreationParams where
  native_texture_id : Int
  width : Int
  height : Int
  deriving DecidableEq, Repr

/-- Severity of a recorded log line. -/
inductive Severity where
  | WARNING
  | ERROR
  deriving DecidableEq, Repr

/-- Externally visible effects of the handler's methods. -/
inductive Effect where
  | on_paint_begin (id : WebviewId)
  | on_paint_end (id : WebviewId)
  | on_page_started (id : WebviewId) (url : String)
  | on_page_finished (id : WebviewId) (url : String)
  | on_web_resource_error (id : WebviewId) (errorCode : Int) (errorText : String)
      (failedUrl : String)
  | on_javascript_result (id : WebviewId) (js_run_id : Int) (was_executed : Bool)
      (is_exception : Bool) (js_result : String) (is_undefined : Bool)
  | on_after_created (id : WebviewId) (browser : CefRefPtr)
  | on_browser_ready
  | on_before_close (id : WebviewId) (browser : CefRefPtr)
  | close_browser_cb (cb : CallbackId)
  | host_CloseBrowser (browser : Browser) (force_close : Bool)
  | host_Invalidate (browser : Browser) (type : PaintElementType)
  | mainFrame_LoadURL (browser : Browser) (url : String)
  | renderer_OnPaint (browser : Browser) (type : PaintElementType)
      (dirtyRects : List CefRect) (buffer : Buffer) (width : Int) (height : Int)
  | log (severity : Severity) (func : String)
  deriving DecidableEq, Repr

/-- Whether an effect is an invocation of a host-supplied callback. -/
def Effect.isHostCallback : Effect → Bool
  | .on_paint_begin _ => true
  | .on_paint_end _ => true
  | .on_page_started _ _ => true
  | .on_page_finished _ _ => true
  | .on_web_resource_error _ _ _ _ => true
  | .on_javascript_result _ _ _ _ _ _ => true
  | .on_after_created _ _ => true
  | .on_browser_ready => true
  | .on_before_close _ _ => true
  | .close_browser_cb _ => true
  | .host_CloseBrowser _ _ => false
  | .host_Invalidate _ _ => false
  | .mainFrame_LoadURL _ _ => false
  | .renderer_OnPaint _ _ _ _ _ _ => false
  | .log _ _ => false

/-- The mutable fields of a `FlutterWebviewHandler`; `R` is the renderer's state. -/
structure Handler (R : Type) where
  close_browser_cb_ : Callback
  webview_id_ : WebviewId
  browser_state_ : BrowserState
  browser_ : CefRefPtr
  renderer_ : R
  webview_width_ : Int
  webview_height_ : Int
  deriving DecidableEq, Repr

/-- An effect together with the handler fields at the moment it happens. -/
structure Obs (R : Type) where
  eff : Effect
  seen : Handler R
  deriving DecidableEq, Repr

/-- What the handler uses from the rest of the repository: the renderer class,
the name of the run-javascript-response message and its reader. -/
structure Env (R : Type) where
  kFrameHostMsg_RunJavascriptResponse : String
  Read_FrameHostMsg_RunJavascriptResponse : CefProcessMessage → JsResponse
  renderer_new : Int → R
  renderer_OnPaint : R → Browser → PaintElementType → List CefRect → Buffer → Int → Int → R
  renderer_popup_rect : R → CefRect
  renderer_OnPopupShow : R → Browser → Bool → R
  renderer_OnPopupSize : R → Browser → CefRect → R

variable {R : Type}

/-- The constructor `FlutterWebviewHandler::FlutterWebviewHandler`. -/
def FlutterWebviewHandler (env : Env R) (webview_id : WebviewId)
    (params : WebviewCreationParams) : Handler R × List (Obs R) :=
  let h0 : Handler R :=
    { close_browser_cb_ := none
      webview_id_ := webview_id
      browser_state_ := BrowserState.kBeforeCreated
      browser_ := none
      renderer_ := env.renderer_new params.native_texture_id
      webview_width_ := params.width
      webview_height_ := params.height }
  if h0.webview_width_ ≤ 0 ∨ h0.webview_height_ ≤ 0 then
    let h1 := if h0.webview_width_ ≤ 0 then { h0 with webview_width_ := 1 } else h0
    let h2 := if h1.webview_height_ ≤ 0 then { h1 with webview_height_ := 1 } else h1
    (h2, [⟨Effect.log Severity.WARNING "FlutterWebviewHandler", h2⟩])
  else
    (h0, [])

/-- The method `OnBeforePopup`: returns `true` (popup blocked). -/
def OnBeforePopup (h : Handler R) (parentBrowser : Browser) (url : String) :
    Bool × Handler R × List (Obs R) :=
  let fx : List (Obs R) :=
    if ¬ url.isEmpty then [⟨Effect.mainFrame_LoadURL parentBrowser url, h⟩] else []
  (true, h, fx)

/-- The method `OnAfterCreated`. -/
def OnAfterCreated (h : Handler R) (browser : CefRefPtr) : Handler R × List (Obs R) :=
  let h1 := { h with browser_ := browser }
  let h2 := { h1 with browser_state_ := BrowserState.kCreated }
  (h2, [⟨Effect.on_after_created h2.webview_id_ browser, h2⟩])

/-- The method `CloseBrowser`; `none` when `browser_` is null at `browser_->GetHost()`. -/
def CloseBrowser (h : Handler R) (close_browser_cb : Callback) :
    Option (Handler R × List (Obs R)) :=
  let h1 := { h with close_browser_cb_ := close_browser_cb }
  let h2 := { h1 with browser_state_ := BrowserState.kClosing }
  match h2.browser_ with
  | none => none
  | some b => some (h2, [⟨Effect.host_CloseBrowser b false, h2⟩])

/-- The method `DoClose`: `true` denies the close, `false` allows it. -/
def DoClose (h : Handler R) (_browser : CefRefPtr) : Bool × Handler R × List (Obs R) :=
  if h.browser_state_ ≠ BrowserState.kClosing then
    (true, h, [⟨Effect.log Severity.WARNING "DoClose", h⟩])
  else
    (false, h, [])

/-- The method `OnBeforeClose`. -/
def OnBeforeClose (h : Handler R) (browser : CefRefPtr) : Handler R × List (Obs R) :=
  let h1 := { h with browser_ := none }
  let o1 : Obs R := ⟨Effect.on_before_close h1.webview_id_ browser, h1⟩
  let h2 := { h1 with browser_state_ := BrowserState.kClosed }
  match h2.close_browser_cb_ with
  | some cb => (h2, [o1, ⟨Effect.close_browser_cb cb, h2⟩])
  | none => (h2, [o1])

/-- The method `OnProcessMessageReceived`: `true` when the message was handled. -/
def OnProcessMessageReceived (env : Env R) (h : Handler R) (_browser : CefRefPtr)
    (_frame : CefFrame) (_source_process : Int) (message : CefProcessMessage) :
    Bool × Handler R × List (Obs R) :=
  let message_name := message.GetName
  if message_name = env.kFrameHostMsg_RunJavascriptResponse then
    let r := env.Read_FrameHostMsg_RunJavascriptResponse message
    (true, h, [⟨Effect.on_javascript_result h.webview_id_ r.js_run_id r.was_executed
      r.is_exception r.js_result r.is_undefined, h⟩])
  else
    (false, h, [])

/-- The method `SetWebviewSize`. -/
def SetWebviewSize (h : Handler R) (width : Int) (height : Int) :
    Handler R × List (Obs R) :=
  if width ≤ 0 ∨ height ≤ 0 then
    (h, [⟨Effect.log Severity.ERROR "SetWebviewSize", h⟩])
  else
    let h1 := { h with webview_width_ := width }
    let h2 := { h1 with webview_height_ := height }
    (h2, [])

/-- The method `OnLoadStart`. -/
def OnLoadStart (h : Handler R) (_browser : CefRefPtr) (frame : CefFrame)
    (_transition_type : Int) : Handler R × List (Obs R) :=
  if frame.IsMain then
    let p : Handler R × List (Obs R) :=
      if h.browser_state_ = BrowserState.kCreated then
        let h1 := { h with browser_state_ := BrowserState.kReady }
        (h1, [⟨Effect.on_browser_ready, h1⟩])
      else
        (h, [])
    (p.1, p.2 ++ [⟨Effect.on_page_started p.1.webview_id_ frame.GetURL, p.1⟩])
  else
    (h, [])

/-- The method `OnLoadEnd`. -/
def OnLoadEnd (h : Handler R) (_browser : CefRefPtr) (frame : CefFrame)
    (_httpStatusCode : Int) : Handler R × List (Obs R) :=
  if frame.IsMain then
    (h, [⟨Effect.on_page_finished h.webview_id_ frame.GetURL, h⟩])
  else
    (h, [])

/-- The method `OnLoadError`. -/
def OnLoadError (h : Handler R) (_browser : CefRefPtr) (frame : CefFrame)
    (errorCode : Int) (errorText : String) (failedUrl : String) :
    Handler R × List (Obs R) :=
  let p : Handler R × List (Obs R) :=
    if h.browser_state_ = BrowserState.kCreated then
      let h1 := { h with browser_state_ := BrowserState.kReady }
      (h1, [⟨Effect.on_browser_ready, h1⟩])
    else
      (h, [])
  if frame.IsMain then
    (p.1, p.2 ++ [⟨Effect.on_web_resource_error p.1.webview_id_ errorCode errorText
      failedUrl, p.1⟩])
  else
    p

/-- The method `GetViewRect`: the rectangle after the call. -/
def GetViewRect (h : Handler R) (_browser : CefRefPtr) (rect : CefRect) : CefRect :=
  let rect1 := { rect with width := h.webview_width_ }
  { rect1 with height := h.webview_height_ }

/-- The method `OnPaint`. -/
def OnPaint (env : Env R) (h : Handler R) (browser : Browser) (type : PaintElementType)
    (dirtyRects : List CefRect) (buffer : Buffer) (width : Int) (height : Int) :
    Handler R × List (Obs R) :=
  let o1 : Obs R := ⟨Effect.on_paint_begin h.webview_id_, h⟩
  let h1 := { h with renderer_ :=
    env.renderer_OnPaint h.renderer_ browser type dirtyRects buffer width height }
  let o2 : Obs R := ⟨Effect.renderer_OnPaint browser type dirtyRects buffer width height, h1⟩
  let inv : List (Obs R) :=
    if type = PaintElementType.PET_VIEW ∧ ¬ (env.renderer_popup_rect h1.renderer_).IsEmpty then
      [⟨Effect.host_Invalidate browser PaintElementType.PET_POPUP, h1⟩]
    else
      []
  (h1, [o1, o2] ++ inv ++ [⟨Effect.on_paint_end h1.webview_id_, h1⟩])

/-- The method `OnPopupShow`. -/
def OnPopupShow (env : Env R) (h : Handler R) (browser : Browser) (show_ : Bool) :
    Handler R × List (Obs R) :=
  ({ h with renderer_ := env.renderer_OnPopupShow h.renderer_ browser show_ }, [])

/-- The method `OnPopupSize`. -/
def OnPopupSize (env : Env R) (h : Handler R) (browser : Browser) (rect : CefRect) :
    Handler R × List (Obs R) :=
  ({ h with renderer_ := env.renderer_OnPopupSize h.renderer_ browser rect }, [])

/-- One call of a handler method, with its arguments. -/
inductive Event where
  | OnAfterCreated (browser : CefRefPtr)
  | CloseBrowser (close_browser_cb : Callback)
  | DoClose (browser : CefRefPtr)
  | OnBeforeClose (browser : CefRefPtr)
  | OnLoadStart (browser : CefRefPtr) (frame : CefFrame) (transition_type : Int)
  | OnLoadEnd (browser : CefRefPtr) (frame : CefFrame) (httpStatusCode : Int)
  | OnLoadError (browser : CefRefPtr) (frame : CefFrame) (errorCode : Int)
      (errorText : String) (failedUrl : String)
  | SetWebviewSize (width : Int) (height : Int)
  | GetViewRect (browser : CefRefPtr) (rect : CefRect)
  | OnPaint (browser : Browser) (type : PaintElementType) (dirtyRects : List CefRect)
      (buffer : Buffer) (width : Int) (height : Int)
  | OnProcessMessageReceived (browser : CefRefPtr) (frame : CefFrame) (source_process : Int)
      (message : CefProcessMessage)
  | OnBeforePopup (parentBrowser : Browser) (url : String)
  | OnPopupShow (browser : Browser) (show_ : Bool)
  | OnPopupSize (browser : Browser) (rect : CefRect)
  deriving DecidableEq, Repr

/-- Deliver one event: the handler after the call and the effects of the call, or
`none` when the call faults. -/
def step (env : Env R) (h : Handler R) : Event → Option (Handler R × List (Obs R))
  | .OnAfterCreated b => some (OnAfterCreated h b)
  | .CloseBrowser cb => CloseBrowser h cb
  | .DoClose b => some (DoClose h b).2
  | .OnBeforeClose b => some (OnBeforeClose h b)
  | .OnLoadStart b f t => some (OnLoadStart h b f t)
  | .OnLoadEnd b f s => some (OnLoadEnd h b f s)
  | .OnLoadError b f c t u => some (OnLoadError h b f c t u)
  | .SetWebviewSize w ht => some (SetWebviewSize h w ht)
  | .GetViewRect _ _ => some (h, [])
  | .OnPaint b t d buf w ht => some (OnPaint env h b t d buf w ht)
  | .OnProcessMessageReceived b f s m => some (OnProcessMessageReceived env h b f s m).2
  | .OnBeforePopup b u => some (OnBeforePopup h b u).2
  | .OnPopupShow b s => some (OnPopupShow env h b s)
  | .OnPopupSize b r => some (OnPopupSize env h b r)

/-- The handlers observed while delivering a sequence of events: the starting
handler, then the handler after each delivered event.  Delivery stops at the first
call that faults. -/
def exec (env : Env R) : Handler R → List Event → List (Handler R)
  | h, [] => [h]
  | h, e :: es =>
    match step env h e with
    | none => [h]
    | some (h1, _) => h :: exec env h1 es

/-- The effects performed while delivering a sequence of events, in order. -/
def effects (env : Env R) : Handler R → List Event → List (Obs R)
  | _, [] => []
  | h, e :: es =>
    match step env h e with
    | none => []
    | some (h1, fx) => fx ++ effects env h1 es

/-- The lifecycle states observed while delivering a sequence of events. -/
def observedStates (env : Env R) (h : Handler R) (es : List Event) : List BrowserState :=
  (exec env h es).map (fun x => x.browser_state_)

/-- The observed states with consecutive repetitions of a state merged. -/
def distinctStates (env : Env R) (h : Handler R) (es : List Event) : List BrowserState :=
  (observedStates env h es).destutter (fun a b => a ≠ b)

/-- The lifecycle order `BeforeCreated, Created, Ready, Closing, Closed`. -/
def lifecycleOrder : List BrowserState :=
  [BrowserState.kBeforeCreated, BrowserState.kCreated, BrowserState.kReady,
   BrowserState.kClosing, BrowserState.kClosed]

/-- Position of a state in the lifecycle order. -/
def BrowserState.rank : BrowserState → Nat
  | .kBeforeCreated => 0
  | .kCreated => 1
  | .kReady => 2
  | .kClosing => 3
  | .kClosed => 4

/-- Number of `on_browser_ready_` invocations among a list of effects. -/
def readyCount (fx : List (Obs R)) : Nat :=
  (fx.filter (fun o => decide (o.eff = Effect.on_browser_ready))).length

/-- Whether every `OnAfterCreated` of the sequence is delivered while the state is
still `BeforeCreated` or `Created`. -/
def createdOnlyEarly (env : Env R) : Handler R → List Event → Bool
  | _, [] => true
  | h, e :: es =>
    (match e with
      | .OnAfterCreated _ => decide (h.browser_state_.rank ≤ 1)
      | _ => true) &&
    (match step env h e with
      | none => true
      | some (h1, _) => createdOnlyEarly env h1 es)

/-- Whether an event is a main-frame `OnLoadStart` or an `OnLoadError`. -/
def Event.isReadyTrigger : Event → Bool
  | .OnLoadStart _ f _ => f.IsMain
  | .OnLoadError _ _ _ _ _ => true
  | _ => false

/-- Whether some delivered event of the sequence is a main-frame `OnLoadStart` or an
`OnLoadError` arriving while the state is `Created`. -/
def readyTriggered (env : Env R) : Handler R → List Event → Bool
  | _, [] => false
  | h, e :: es =>
    (decide (h.browser_state_ = BrowserState.kCreated) && e.isReadyTrigger) ||
    (match step env h e with
      | none => false
      | some (h1, _) => readyTriggered env h1 es)

/-- Whether an event is a `CloseBrowser` call. -/
def Event.isCloseBrowser : Event → Bool
  | .CloseBrowser _ => true
  | _ => false

/-- A renderer state for concrete runs: the popup rectangle and the number of
composed frames. -/
structure SampleRenderer where
  popup_rect_ : CefRect
  frames : Nat
  deriving DecidableEq, Repr

/-- Modelled from the spec: the reader of the run-javascript-response message, whose
source is not in this file.  The message carries the fields
`runId, wasExecuted, isException, result, isUndefined` in this order. -/
def sampleRead (m : CefProcessMessage) : JsResponse :=
  match m.GetArgumentList with
  | [CefValue.int i, CefValue.bool w, CefValue.bool x, CefValue.string r, CefValue.bool u] =>
    ⟨i, w, x, r, u⟩
  | _ => ⟨0, false, false, "", false⟩

/-- A concrete environment for evaluating the handler on explicit inputs. -/
def sampleEnv : Env SampleRenderer where
  kFrameHostMsg_RunJavascriptResponse := "FrameHostMsg_RunJavascriptResponse"
  Read_FrameHostMsg_RunJavascriptResponse := sampleRead
  renderer_new := fun _ => ⟨⟨0, 0, 0, 0⟩, 0⟩
  renderer_OnPaint := fun r _ _ _ _ _ _ => { r with frames := r.frames + 1 }
  renderer_popup_rect := fun r => r.popup_rect_
  renderer_OnPopupShow := fun r _ s => if s then r else { r with popup_rect_ := ⟨0, 0, 0, 0⟩ }
  renderer_OnPopupSize := fun r _ rect => { r with popup_rect_ := rect }

/-- A freshly constructed handler in the concrete environment. -/
def sampleFresh : Handler SampleRenderer :=
  (FlutterWebviewHandler sampleEnv 1 ⟨0, 800, 600⟩).1

/-- A main frame showing a page. -/
def mainFrame : CefFrame := ⟨true, "https://example.com/"⟩

/-- A sub-frame. -/
def subFrame : CefFrame := ⟨false, "https://example.com/ad"⟩

/-- A handler in state `Ready` holding browser 5: the sample handler after
`OnAfterCreated` and a main-frame `OnLoadStart`. -/
def sampleReady : Handler SampleRenderer :=
  (OnLoadStart (OnAfterCreated sampleFresh (some 5)).1 (some 5) mainFrame 0).1

/-- A handler in state `Closed`: the sample `Ready` handler after `OnBeforeClose`. -/
def sampleClosed : Handler SampleRenderer :=
  (OnBeforeClose sampleReady (some 5)).1

/-- A run-javascript-response message carrying `7, true, false, "42", false`. -/
def sampleMessage : CefProcessMessage :=
  ⟨"FrameHostMsg_RunJavascriptResponse",
   [CefValue.int 7, CefValue.bool true, CefValue.bool false, CefValue.string "42",
    CefValue.bool false]⟩

/-- Whether an event is an `OnAfterCreated` call. -/
def Event.isOnAfterCreated : Event → Bool
  | .OnAfterCreated _ => true
  | _ => false

/-- Whether an event is an `OnAfterCreated` call passing a null browser. -/
def Event.isNullCreated : Event → Bool
  | .OnAfterCreated none => true
  | _ => false

/-- Deliver a whole sequence of events: the final handler, or `none` when some call
faults. -/
def deliver (env : Env R) : Handler R → List Event → Option (Handler R)
  | h, [] => some h
  | h, e :: es =>
    match step env h e with
    | none => none
    | some (h1, _) => deliver env h1 es

/-- The callback passed to the most recent `CloseBrowser` of a sequence, or `init` when
the sequence has no `CloseBrowser`. -/
def lastCloseCallback (init : Callback) : List Event → Callback
  | [] => init
  | Event.CloseBrowser cb :: es => lastCloseCallback cb es
  | _ :: es => lastCloseCallback init es

/-- Whether a state is one of `Created`, `Ready`, `Closing`. -/
def BrowserState.isLive : BrowserState → Bool
  | .kCreated => true
  | .kReady => true
  | .kClosing => true
  | _ => false

/-- Invariant: the browser handle is non-null exactly in `Created`, `Ready`, `Closing`. -/
def handleIffLive (h : Handler R) : Prop :=
  h.browser_ ≠ none ↔ h.browser_state_.isLive = true

/-- A handler in state `Created` holding browser 5. -/
def sampleCreated : Handler SampleRenderer :=
  (OnAfterCreated sampleFresh (some 5)).1

/-- The lifecycle state after a delivered event, from the state before it. -/
def Event.nextState (s : BrowserState) : Event → BrowserState
  | .OnAfterCreated _ => BrowserState.kCreated
  | .CloseBrowser _ => BrowserState.kClosing
  | .OnBeforeClose _ => BrowserState.kClosed
  | .OnLoadStart _ f _ =>
    if f.IsMain = true ∧ s = BrowserState.kCreated then BrowserState.kReady else s
  | .OnLoadError _ _ _ _ _ =>
    if s = BrowserState.kCreated then BrowserState.kReady else s
  | _ => s

/-- The stored handle after a delivered event, from the handle before it. -/
def Event.nextHandle (b : CefRefPtr) : Event → CefRefPtr
  | .OnAfterCreated b1 => b1
  | .OnBeforeClose _ => none
  | _ => b

/-- The stored close callback after a delivered event, from the one before it. -/
def Event.nextCallback (c : Callback) : Event → Callback
  | .CloseBrowser c1 => c1
  | _ => c

/-- A handler in state `Closing` holding browser 5 and close callback 9: the sample
`Ready` handler after `CloseBrowser(9)`. -/
def sampleClosing : Handler SampleRenderer :=
  { sampleReady with close_browser_cb_ := some 9, browser_state_ := BrowserState.kClosing }

/-- Invariant: a handler in state `Closed` holds no browser handle. -/
def closedNoHandle (h : Handler R) : Prop :=
  h.browser_state_ = BrowserState.kClosed → h.browser_ = none

instance rankLe_trans : IsTrans BrowserState (fun a b => a.rank ≤ b.rank) :=
  ⟨fun _ _ _ hab hbc => Nat.le_trans hab hbc⟩

instance rankLt_trans : IsTrans BrowserState (fun a b => a.rank < b.rank) :=
  ⟨fun _ _ _ hab hbc => Nat.lt_trans hab hbc⟩

instance rankLt_antisymm : IsAntisymm BrowserState (fun a b => a.rank < b.rank) :=
  ⟨fun _ _ hab hba => absurd hab (Nat.lt_asymm hba)⟩

/-- Invariant: both stored viewport dimensions are at least 1. -/
def viewportPositive (h : Handler R) : Prop :=
  1 ≤ h.webview_width_ ∧ 1 ≤ h.webview_height_

/-! ## Lifecycle order -/

theorem rank_injective : ∀ a b : BrowserState, a.rank = b.rank → a = b := by
  intro a b; cases a <;> cases b <;> simp [BrowserState.rank]

theorem mem_lifecycleOrder (s : BrowserState) : s ∈ lifecycleOrder := by
  cases s <;> simp [lifecycleOrder]

theorem lifecycleOrder_sorted :
    lifecycleOrder.Pairwise (fun a b => a.rank < b.rank) := by
  simp [lifecycleOrder, BrowserState.rank]

theorem observedStates_nil (env : Env R) (h : Handler R) :
    observedStates env h [] = [h.browser_state_] := rfl

theorem observedStates_head (env : Env R) (h : Handler R) (es : List Event) :
    (observedStates env h es).head? = some h.browser_state_ := by
  cases es with
  | nil => rfl
  | cons e es =>
    unfold observedStates exec
    cases step env h e with
    | none => rfl
    | some p => rfl

theorem observedStates_cons_some (env : Env R) (h h1 : Handler R) (fx : List (Obs R))
    (e : Event) (es : List Event) (hs : step env h e = some (h1, fx)) :
    observedStates env h (e :: es) = h.browser_state_ :: observedStates env h1 es := by
  simp [observedStates, exec, hs]

theorem observedStates_cons_none (env : Env R) (h : Handler R)
    (e : Event) (es : List Event) (hs : step env h e = none) :
    observedStates env h (e :: es) = [h.browser_state_] := by
  simp [observedStates, exec, hs]

/-- One delivered event never lowers the rank of the state, provided an
`OnAfterCreated` arrives only in `BeforeCreated` or `Created`; the invariant
`closedNoHandle` is kept. -/
theorem step_rank_le (env : Env R) (h h1 : Handler R) (fx : List (Obs R)) (e : Event)
    (hs : step env h e = some (h1, fx)) (hinv : closedNoHandle h)
    (he : ∀ b, e = Event.OnAfterCreated b → h.browser_state_.rank ≤ 1) :
    h.browser_state_.rank ≤ h1.browser_state_.rank ∧ closedNoHandle h1 := by
  obtain ⟨cb, id, st, br, rd, w, ht⟩ := h
  cases e with
  | OnAfterCreated b =>
    have h1r := he b rfl
    simp only [step, OnAfterCreated, Option.some.injEq, Prod.mk.injEq] at hs
    obtain ⟨rfl, -⟩ := hs
    cases st <;> simp_all [BrowserState.rank, closedNoHandle]
  | CloseBrowser c =>
    cases br with
    | none => simp [step, CloseBrowser] at hs
    | some b =>
      simp only [step, CloseBrowser, Option.some.injEq, Prod.mk.injEq] at hs
      obtain ⟨rfl, -⟩ := hs
      cases st <;> simp_all [BrowserState.rank, closedNoHandle]
  | DoClose b =>
    simp only [step, DoClose] at hs
    split at hs <;> simp only [Option.some.injEq, Prod.mk.injEq] at hs <;>
      obtain ⟨rfl, -⟩ := hs <;> exact ⟨Nat.le_refl _, hinv⟩
  | OnBeforeClose b =>
    simp only [step, OnBeforeClose] at hs
    cases cb <;> simp only [Option.some.injEq, Prod.mk.injEq] at hs <;>
      obtain ⟨rfl, -⟩ := hs <;> cases st <;> simp [BrowserState.rank, closedNoHandle]
  | OnLoadStart b f t =>
    simp only [step, OnLoadStart] at hs
    cases st <;> cases hf : f.IsMain <;>
      simp [hf] at hs <;> obtain ⟨rfl, -⟩ := hs <;>
      simp_all [BrowserState.rank, closedNoHandle]
  | OnLoadEnd b f s =>
    simp only [step, OnLoadEnd] at hs
    cases hf : f.IsMain <;> simp [hf] at hs <;> obtain ⟨rfl, -⟩ := hs <;>
      exact ⟨Nat.le_refl _, hinv⟩
  | OnLoadError b f c t u =>
    simp only [step, OnLoadError] at hs
    cases st <;> cases hf : f.IsMain <;>
      simp [hf] at hs <;> obtain ⟨rfl, -⟩ := hs <;>
      simp_all [BrowserState.rank, closedNoHandle]
  | SetWebviewSize w1 h2 =>
    simp only [step, SetWebviewSize] at hs
    split at hs <;> simp only [Option.some.injEq, Prod.mk.injEq] at hs <;>
      obtain ⟨rfl, -⟩ := hs <;> exact ⟨Nat.le_refl _, hinv⟩
  | GetViewRect b r =>
    simp only [step, Option.some.injEq, Prod.mk.injEq] at hs
    obtain ⟨rfl, -⟩ := hs
    exact ⟨Nat.le_refl _, hinv⟩
  | OnPaint b t d buf w1 h2 =>
    simp only [step, OnPaint, Option.some.injEq, Prod.mk.injEq] at hs
    obtain ⟨rfl, -⟩ := hs
    exact ⟨Nat.le_refl _, hinv⟩
  | OnProcessMessageReceived b f s m =>
    simp only [step, OnProcessMessageReceived] at hs
    split at hs <;> simp only [Option.some.injEq, Prod.mk.injEq] at hs <;>
      obtain ⟨rfl, -⟩ := hs <;> exact ⟨Nat.le_refl _, hinv⟩
  | OnBeforePopup b u =>
    simp only [step, OnBeforePopup, Option.some.injEq, Prod.mk.injEq] at hs
    obtain ⟨rfl, -⟩ := hs
    exact ⟨Nat.le_refl _, hinv⟩
  | OnPopupShow b s =>
    simp only [step, OnPopupShow, Option.some.injEq, Prod.mk.injEq] at hs
    obtain ⟨rfl, -⟩ := hs
    exact ⟨Nat.le_refl _, hinv⟩
  | OnPopupSize b r =>
    simp only [step, OnPopupSize, Option.some.injEq, Prod.mk.injEq] at hs
    obtain ⟨rfl, -⟩ := hs
    exact ⟨Nat.le_refl _, hinv⟩

theorem fresh_state (env : Env R) (id : WebviewId) (params : WebviewCreationParams) :
    (FlutterWebviewHandler env id params).1.browser_state_ = BrowserState.kBeforeCreated ∧
    (FlutterWebviewHandler env id params).1.browser_ = none ∧
    (FlutterWebviewHandler env id params).1.close_browser_cb_ = none ∧
    (FlutterWebviewHandler env id params).1.webview_id_ = id := by
  unfold FlutterWebviewHandler
  simp only
  split
  · split <;> split <;> simp
  · simp

theorem fresh_closedNoHandle (env : Env R) (id : WebviewId)
    (params : WebviewCreationParams) :
    closedNoHandle (FlutterWebviewHandler env id params).1 := by
  intro hc
  rw [(fresh_state env id params).1] at hc
  cases hc

/-- Under `createdOnlyEarly`, adjacent observed states are in lifecycle order. -/
theorem observedStates_chain (env : Env R) (es : List Event) :
    ∀ h : Handler R, closedNoHandle h → createdOnlyEarly env h es = true →
      (observedStates env h es).Chain' (fun a b => a.rank ≤ b.rank) := by
  induction es with
  | nil => intro h _ _; simp [observedStates_nil]
  | cons e es ih =>
    intro h hinv hc
    cases hs : step env h e with
    | none => simp [observedStates_cons_none env h e es hs]
    | some p =>
      obtain ⟨h1, fx⟩ := p
      rw [observedStates_cons_some env h h1 fx e es hs]
      simp only [createdOnlyEarly, hs, Bool.and_eq_true] at hc
      have hearly : ∀ b, e = Event.OnAfterCreated b → h.browser_state_.rank ≤ 1 := by
        intro b hb
        subst hb
        simpa using hc.1
      obtain ⟨hle, hinv1⟩ := step_rank_le env h h1 fx e hs hinv hearly
      rw [List.chain'_cons']
      refine ⟨?_, ih h1 hinv1 hc.2⟩
      intro y hy
      rw [observedStates_head] at hy
      simp only [Option.mem_def, Option.some.injEq] at hy
      subst hy
      exact hle

/-- A list in weak lifecycle order, once consecutive repetitions are merged, is a
sublist of the lifecycle order. -/
theorem destutter_sublist_lifecycleOrder (l : List BrowserState)
    (hl : l.Pairwise (fun a b => a.rank ≤ b.rank)) :
    (l.destutter (fun a b => a ≠ b)).Sublist lifecycleOrder := by
  have hsub := List.destutter_sublist (fun a b : BrowserState => a ≠ b) l
  have hle : (l.destutter (fun a b => a ≠ b)).Pairwise (fun a b => a.rank ≤ b.rank) :=
    hl.sublist hsub
  have hne : (l.destutter (fun a b => a ≠ b)).Chain' (fun a b => a ≠ b) :=
    List.destutter_is_chain' _ l
  have hlt : ∀ d : List BrowserState, d.Pairwise (fun a b => a.rank ≤ b.rank) →
      d.Chain' (fun a b => a ≠ b) → d.Chain' (fun a b => a.rank < b.rank) := by
    intro d
    induction d with
    | nil => intro _ _; exact List.chain'_nil
    | cons a d ih =>
      intro h1 h2
      rw [List.chain'_cons'] at h2 ⊢
      refine ⟨?_, ih (List.Pairwise.of_cons h1) h2.2⟩
      intro y hy
      have hmem : y ∈ d := List.mem_of_mem_head? hy
      have h3 : a.rank ≤ y.rank := List.rel_of_pairwise_cons h1 hmem
      have h4 : a ≠ y := h2.1 y hy
      exact Nat.lt_of_le_of_ne h3 (fun hr => h4 (rank_injective a y hr))
  have hsorted : (l.destutter (fun a b => a ≠ b)).Pairwise (fun a b => a.rank < b.rank) :=
    List.chain'_iff_pairwise.mp (hlt _ hle hne)
  have hnodup : (l.destutter (fun a b => a ≠ b)).Nodup :=
    hsorted.imp (fun {a b} hab hEq => by subst hEq; exact Nat.lt_irrefl _ hab)
  exact List.sublist_of_subperm_of_sorted
    (List.subperm_of_subset hnodup (fun s _ => mem_lifecycleOrder s))
    hsorted lifecycleOrder_sorted

theorem observedStates_sorted (env : Env R) (h : Handler R) (es : List Event)
    (hinv : closedNoHandle h) (hc : createdOnlyEarly env h es = true) :
    (observedStates env h es).Pairwise (fun a b => a.rank ≤ b.rank) :=
  List.chain'_iff_pairwise.mp (observedStates_chain env es h hinv hc)

/-- Conversely, an `OnAfterCreated` delivered in `Ready`, `Closing` or `Closed` breaks
the order: the proviso `createdOnlyEarly` is necessary. -/
theorem createdOnlyEarly_of_sorted (env : Env R) (es : List Event) :
    ∀ h : Handler R, (observedStates env h es).Pairwise (fun a b => a.rank ≤ b.rank) →
      createdOnlyEarly env h es = true := by
  induction es with
  | nil => intro h _; rfl
  | cons e es ih =>
    intro h hp
    cases hs : step env h e with
    | none =>
      cases e <;> simp [step] at hs
      simp [createdOnlyEarly, step, hs]
    | some p =>
      obtain ⟨h1, fx⟩ := p
      rw [observedStates_cons_some env h h1 fx e es hs] at hp
      simp only [createdOnlyEarly, hs, Bool.and_eq_true]
      refine ⟨?_, ih h1 (List.Pairwise.of_cons hp)⟩
      have hmem := List.mem_of_mem_head? (observedStates_head env h1 es)
      have hrel : h.browser_state_.rank ≤ h1.browser_state_.rank :=
        List.rel_of_pairwise_cons hp hmem
      cases e <;> try rfl
      simp only [step, OnAfterCreated, Option.some.injEq, Prod.mk.injEq] at hs
      obtain ⟨rfl, -⟩ := hs
      simpa [BrowserState.rank] using hrel

/-! ## The ready notification -/

theorem readyCount_append (a b : List (Obs R)) :
    readyCount (a ++ b) = readyCount a + readyCount b := by
  simp [readyCount]

/-- The ready notifications of one delivered event: one when the event is a ready
trigger arriving in `Created` (and the state becomes `Ready`), none otherwise. -/
theorem step_readyCount (env : Env R) (h h1 : Handler R) (fx : List (Obs R)) (e : Event)
    (hs : step env h e = some (h1, fx)) :
    readyCount fx =
      (if h.browser_state_ = BrowserState.kCreated ∧ e.isReadyTrigger = true then 1 else 0) ∧
    (h.browser_state_ = BrowserState.kCreated ∧ e.isReadyTrigger = true →
      h1.browser_state_ = BrowserState.kReady) := by
  obtain ⟨cb, id, st, br, rd, w, ht⟩ := h
  cases e with
  | OnAfterCreated b =>
    simp only [step, OnAfterCreated, Option.some.injEq, Prod.mk.injEq] at hs
    obtain ⟨rfl, rfl⟩ := hs
    simp [readyCount, Event.isReadyTrigger]
  | CloseBrowser c =>
    cases br with
    | none => simp [step, CloseBrowser] at hs
    | some b =>
      simp only [step, CloseBrowser, Option.some.injEq, Prod.mk.injEq] at hs
      obtain ⟨rfl, rfl⟩ := hs
      simp [readyCount, Event.isReadyTrigger]
  | DoClose b =>
    simp only [step, DoClose] at hs
    split at hs <;> simp only [Option.some.injEq, Prod.mk.injEq] at hs <;>
      obtain ⟨rfl, rfl⟩ := hs <;> simp [readyCount, Event.isReadyTrigger]
  | OnBeforeClose b =>
    simp only [step, OnBeforeClose] at hs
    cases cb <;> simp only [Option.some.injEq, Prod.mk.injEq] at hs <;>
      obtain ⟨rfl, rfl⟩ := hs <;> simp [readyCount, Event.isReadyTrigger]
  | OnLoadStart b f t =>
    simp only [step, OnLoadStart] at hs
    cases st <;> cases hf : f.IsMain <;>
      simp [hf] at hs <;> obtain ⟨rfl, rfl⟩ := hs <;>
      simp [readyCount, Event.isReadyTrigger, hf]
  | OnLoadEnd b f s =>
    simp only [step, OnLoadEnd] at hs
    cases hf : f.IsMain <;> simp [hf] at hs <;> obtain ⟨rfl, rfl⟩ := hs <;>
      simp [readyCount, Event.isReadyTrigger]
  | OnLoadError b f c t u =>
    simp only [step, OnLoadError] at hs
    cases st <;> cases hf : f.IsMain <;>
      simp [hf] at hs <;> obtain ⟨rfl, rfl⟩ := hs <;>
      simp [readyCount, Event.isReadyTrigger]
  | SetWebviewSize w1 h2 =>
    simp only [step, SetWebviewSize] at hs
    split at hs <;> simp only [Option.some.injEq, Prod.mk.injEq] at hs <;>
      obtain ⟨rfl, rfl⟩ := hs <;> simp [readyCount, Event.isReadyTrigger]
  | GetViewRect b r =>
    simp only [step, Option.some.injEq, Prod.mk.injEq] at hs
    obtain ⟨rfl, rfl⟩ := hs
    simp [readyCount, Event.isReadyTrigger]
  | OnPaint b t d buf w1 h2 =>
    simp only [step, OnPaint, Option.some.injEq, Prod.mk.injEq] at hs
    obtain ⟨rfl, rfl⟩ := hs
    simp only [readyCount, Event.isReadyTrigger]
    split <;> simp
  | OnProcessMessageReceived b f s m =>
    simp only [step, OnProcessMessageReceived] at hs
    split at hs <;> simp only [Option.some.injEq, Prod.mk.injEq] at hs <;>
      obtain ⟨rfl, rfl⟩ := hs <;> simp [readyCount, Event.isReadyTrigger]
  | OnBeforePopup b u =>
    simp only [step, OnBeforePopup, Option.some.injEq, Prod.mk.injEq] at hs
    obtain ⟨rfl, rfl⟩ := hs
    simp only [readyCount, Event.isReadyTrigger]
    split <;> simp
  | OnPopupShow b s =>
    simp only [step, OnPopupShow, Option.some.injEq, Prod.mk.injEq] at hs
    obtain ⟨rfl, rfl⟩ := hs
    simp [readyCount, Event.isReadyTrigger]
  | OnPopupSize b r =>
    simp only [step, OnPopupSize, Option.some.injEq, Prod.mk.injEq] at hs
    obtain ⟨rfl, rfl⟩ := hs
    simp [readyCount, Event.isReadyTrigger]

theorem effects_cons_some (env : Env R) (h h1 : Handler R) (fx : List (Obs R))
    (e : Event) (es : List Event) (hs : step env h e = some (h1, fx)) :
    effects env h (e :: es) = fx ++ effects env h1 es := by
  simp [effects, hs]

theorem effects_cons_none (env : Env R) (h : Handler R)
    (e : Event) (es : List Event) (hs : step env h e = none) :
    effects env h (e :: es) = [] := by
  simp [effects, hs]

/-- Under `createdOnlyEarly` the number of ready notifications of a run is one when
a ready trigger arrives in `Created` and zero otherwise; no trigger can arrive in
`Created` once the state is `Ready` or later. -/
theorem readyCount_effects (env : Env R) (es : List Event) :
    ∀ h : Handler R, closedNoHandle h → createdOnlyEarly env h es = true →
      readyCount (effects env h es) = (if readyTriggered env h es = true then 1 else 0) ∧
      (2 ≤ h.browser_state_.rank → readyTriggered env h es = false) := by
  induction es with
  | nil => intro h _ _; simp [effects, readyCount, readyTriggered]
  | cons e es ih =>
    intro h hinv hc
    cases hs : step env h e with
    | none =>
      have htrig : e.isReadyTrigger = false := by
        cases e <;> simp [step] at hs
        rfl
      simp [effects_cons_none env h e es hs, readyTriggered, hs, htrig, readyCount]
    | some p =>
      obtain ⟨h1, fx⟩ := p
      simp only [createdOnlyEarly, hs, Bool.and_eq_true] at hc
      have hearly : ∀ b, e = Event.OnAfterCreated b → h.browser_state_.rank ≤ 1 := by
        intro b hb
        subst hb
        simpa using hc.1
      obtain ⟨hle, hinv1⟩ := step_rank_le env h h1 fx e hs hinv hearly
      obtain ⟨hcount, hready⟩ := step_readyCount env h h1 fx e hs
      obtain ⟨ih1, ih2⟩ := ih h1 hinv1 hc.2
      rw [effects_cons_some env h h1 fx e es hs, readyCount_append, hcount, ih1]
      simp only [readyTriggered, hs, Bool.or_eq_true, Bool.and_eq_true, decide_eq_true_eq]
      by_cases ht : h.browser_state_ = BrowserState.kCreated ∧ e.isReadyTrigger = true
      · have h1r : h1.browser_state_ = BrowserState.kReady := hready ht
        have hfalse : readyTriggered env h1 es = false := ih2 (by simp [h1r, BrowserState.rank])
        refine ⟨by simp [ht, hfalse], ?_⟩
        intro h2
        rw [ht.1] at h2
        simp [BrowserState.rank] at h2
      · refine ⟨by simp [ht], ?_⟩
        intro h2
        have hfalse : readyTriggered env h1 es = false := ih2 (Nat.le_trans h2 hle)
        have hne : h.browser_state_ ≠ BrowserState.kCreated := by
          intro hEq
          rw [hEq] at h2
          simp [BrowserState.rank] at h2
        simp [hne, hfalse]

/-! ## The close gate -/

/-- An event other than `CloseBrowser` never produces the state `Closing`. -/
theorem step_not_closing (env : Env R) (h h1 : Handler R) (fx : List (Obs R)) (e : Event)
    (hs : step env h e = some (h1, fx)) (he : e.isCloseBrowser = false)
    (hn : h.browser_state_ ≠ BrowserState.kClosing) :
    h1.browser_state_ ≠ BrowserState.kClosing := by
  obtain ⟨cb, id, st, br, rd, w, ht⟩ := h
  cases e with
  | CloseBrowser c => simp [Event.isCloseBrowser] at he
  | OnAfterCreated b =>
    simp only [step, OnAfterCreated, Option.some.injEq, Prod.mk.injEq] at hs
    obtain ⟨rfl, -⟩ := hs
    simp
  | DoClose b =>
    simp only [step, DoClose] at hs
    split at hs <;> simp only [Option.some.injEq, Prod.mk.injEq] at hs <;>
      obtain ⟨rfl, -⟩ := hs <;> exact hn
  | OnBeforeClose b =>
    simp only [step, OnBeforeClose] at hs
    cases cb <;> simp only [Option.some.injEq, Prod.mk.injEq] at hs <;>
      obtain ⟨rfl, -⟩ := hs <;> simp
  | OnLoadStart b f t =>
    simp only [step, OnLoadStart] at hs
    cases st <;> cases hf : f.IsMain <;>
      simp [hf] at hs <;> obtain ⟨rfl, -⟩ := hs <;> simp_all
  | OnLoadEnd b f s =>
    simp only [step, OnLoadEnd] at hs
    cases hf : f.IsMain <;> simp [hf] at hs <;> obtain ⟨rfl, -⟩ := hs <;> exact hn
  | OnLoadError b f c t u =>
    simp only [step, OnLoadError] at hs
    cases st <;> cases hf : f.IsMain <;>
      simp [hf] at hs <;> obtain ⟨rfl, -⟩ := hs <;> simp_all
  | SetWebviewSize w1 h2 =>
    simp only [step, SetWebviewSize] at hs
    split at hs <;> simp only [Option.some.injEq, Prod.mk.injEq] at hs <;>
      obtain ⟨rfl, -⟩ := hs <;> exact hn
  | GetViewRect b r =>
    simp only [step, Option.some.injEq, Prod.mk.injEq] at hs
    obtain ⟨rfl, -⟩ := hs
    exact hn
  | OnPaint b t d buf w1 h2 =>
    simp only [step, OnPaint, Option.some.injEq, Prod.mk.injEq] at hs
    obtain ⟨rfl, -⟩ := hs
    exact hn
  | OnProcessMessageReceived b f s m =>
    simp only [step, OnProcessMessageReceived] at hs
    split at hs <;> simp only [Option.some.injEq, Prod.mk.injEq] at hs <;>
      obtain ⟨rfl, -⟩ := hs <;> exact hn
  | OnBeforePopup b u =>
    simp only [step, OnBeforePopup, Option.some.injEq, Prod.mk.injEq] at hs
    obtain ⟨rfl, -⟩ := hs
    exact hn
  | OnPopupShow b s =>
    simp only [step, OnPopupShow, Option.some.injEq, Prod.mk.injEq] at hs
    obtain ⟨rfl, -⟩ := hs
    exact hn
  | OnPopupSize b r =>
    simp only [step, OnPopupSize, Option.some.injEq, Prod.mk.injEq] at hs
    obtain ⟨rfl, -⟩ := hs
    exact hn

/-- Without a `CloseBrowser` call no observed handler is in state `Closing`. -/
theorem exec_not_closing (env : Env R) (es : List Event) :
    ∀ h : Handler R, h.browser_state_ ≠ BrowserState.kClosing →
      (∀ e ∈ es, e.isCloseBrowser = false) →
      ∀ h1 ∈ exec env h es, h1.browser_state_ ≠ BrowserState.kClosing := by
  induction es with
  | nil =>
    intro h hn _ h1 hm
    simp only [exec, List.mem_singleton] at hm
    subst hm
    exact hn
  | cons e es ih =>
    intro h hn hall h1 hm
    cases hs : step env h e with
    | none =>
      simp only [exec, hs, List.mem_singleton] at hm
      subst hm
      exact hn
    | some p =>
      obtain ⟨h2, fx⟩ := p
      simp only [exec, hs, List.mem_cons] at hm
      rcases hm with rfl | hm
      · exact hn
      · exact ih h2
          (step_not_closing env h h2 fx e hs (hall e (List.mem_cons_self _ _)) hn)
          (fun e1 he1 => hall e1 (List.mem_cons_of_mem _ he1)) h1 hm

/-! ## The viewport -/

theorem fresh_viewport (env : Env R) (id : WebviewId) (params : WebviewCreationParams) :
    (FlutterWebviewHandler env id params).1.webview_width_ =
      (if params.width > 0 then params.width else 1) ∧
    (FlutterWebviewHandler env id params).1.webview_height_ =
      (if params.height > 0 then params.height else 1) := by
  unfold FlutterWebviewHandler
  simp only
  by_cases hw : params.width ≤ 0 <;> by_cases hh : params.height ≤ 0 <;>
    simp [hw, hh] <;> omega

/-- One delivered event keeps the viewport dimensions at least 1. -/
theorem step_viewportPositive (env : Env R) (h h1 : Handler R) (fx : List (Obs R))
    (e : Event) (hs : step env h e = some (h1, fx)) (hv : viewportPositive h) :
    viewportPositive h1 := by
  obtain ⟨cb, id, st, br, rd, w, ht⟩ := h
  cases e with
  | OnAfterCreated b =>
    simp only [step, OnAfterCreated, Option.some.injEq, Prod.mk.injEq] at hs
    obtain ⟨rfl, -⟩ := hs
    exact hv
  | CloseBrowser c =>
    cases br with
    | none => simp [step, CloseBrowser] at hs
    | some b =>
      simp only [step, CloseBrowser, Option.some.injEq, Prod.mk.injEq] at hs
      obtain ⟨rfl, -⟩ := hs
      exact hv
  | DoClose b =>
    simp only [step, DoClose] at hs
    split at hs <;> simp only [Option.some.injEq, Prod.mk.injEq] at hs <;>
      obtain ⟨rfl, -⟩ := hs <;> exact hv
  | OnBeforeClose b =>
    simp only [step, OnBeforeClose] at hs
    cases cb <;> simp only [Option.some.injEq, Prod.mk.injEq] at hs <;>
      obtain ⟨rfl, -⟩ := hs <;> exact hv
  | OnLoadStart b f t =>
    simp only [step, OnLoadStart] at hs
    cases st <;> cases hf : f.IsMain <;>
      simp [hf] at hs <;> obtain ⟨rfl, -⟩ := hs <;> exact hv
  | OnLoadEnd b f s =>
    simp only [step, OnLoadEnd] at hs
    cases hf : f.IsMain <;> simp [hf] at hs <;> obtain ⟨rfl, -⟩ := hs <;> exact hv
  | OnLoadError b f c t u =>
    simp only [step, OnLoadError] at hs
    cases st <;> cases hf : f.IsMain <;>
      simp [hf] at hs <;> obtain ⟨rfl, -⟩ := hs <;> exact hv
  | SetWebviewSize w1 h2 =>
    simp only [step, SetWebviewSize] at hs
    split at hs
    · simp only [Option.some.injEq, Prod.mk.injEq] at hs
      obtain ⟨rfl, -⟩ := hs
      exact hv
    · rename_i hgood
      simp only [Option.some.injEq, Prod.mk.injEq] at hs
      obtain ⟨rfl, -⟩ := hs
      simp only [viewportPositive]
      omega
  | GetViewRect b r =>
    simp only [step, Option.some.injEq, Prod.mk.injEq] at hs
    obtain ⟨rfl, -⟩ := hs
    exact hv
  | OnPaint b t d buf w1 h2 =>
    simp only [step, OnPaint, Option.some.injEq, Prod.mk.injEq] at hs
    obtain ⟨rfl, -⟩ := hs
    exact hv
  | OnProcessMessageReceived b f s m =>
    simp only [step, OnProcessMessageReceived] at hs
    split at hs <;> simp only [Option.some.injEq, Prod.mk.injEq] at hs <;>
      obtain ⟨rfl, -⟩ := hs <;> exact hv
  | OnBeforePopup b u =>
    simp only [step, OnBeforePopup, Option.some.injEq, Prod.mk.injEq] at hs
    obtain ⟨rfl, -⟩ := hs
    exact hv
  | OnPopupShow b s =>
    simp only [step, OnPopupShow, Option.some.injEq, Prod.mk.injEq] at hs
    obtain ⟨rfl, -⟩ := hs
    exact hv
  | OnPopupSize b r =>
    simp only [step, OnPopupSize, Option.some.injEq, Prod.mk.injEq] at hs
    obtain ⟨rfl, -⟩ := hs
    exact hv

/-- Every handler observed during a run from a handler with a positive viewport has a
positive viewport. -/
theorem exec_viewportPositive (env : Env R) (es : List Event) :
    ∀ h : Handler R, viewportPositive h → ∀ h1 ∈ exec env h es, viewportPositive h1 := by
  induction es with
  | nil =>
    intro h hv h1 hm
    simp only [exec, List.mem_singleton] at hm
    subst hm
    exact hv
  | cons e es ih =>
    intro h hv h1 hm
    cases hs : step env h e with
    | none =>
      simp only [exec, hs, List.mem_singleton] at hm
      subst hm
      exact hv
    | some p =>
      obtain ⟨h2, fx⟩ := p
      simp only [exec, hs, List.mem_cons] at hm
      rcases hm with rfl | hm
      · exact hv
      · exact ih h2 (step_viewportPositive env h h2 fx e hs hv) h1 hm

/-! ## Field changes of one event -/

/-- How one delivered event changes the session identifier, the stored callback, the
handle and the lifecycle state; a delivered `CloseBrowser` had a handle to use. -/
theorem step_fields (env : Env R) (h h1 : Handler R) (fx : List (Obs R)) (e : Event)
    (hs : step env h e = some (h1, fx)) :
    h1.webview_id_ = h.webview_id_ ∧
    h1.close_browser_cb_ = e.nextCallback h.close_browser_cb_ ∧
    h1.browser_ = e.nextHandle h.browser_ ∧
    (e.isCloseBrowser = true → h.browser_ ≠ none) ∧
    h1.browser_state_ = e.nextState h.browser_state_ := by
  obtain ⟨cb, id, st, br, rd, w, ht⟩ := h
  cases e with
  | OnAfterCreated b =>
    simp only [step, OnAfterCreated, Option.some.injEq, Prod.mk.injEq] at hs
    obtain ⟨rfl, -⟩ := hs
    simp [Event.isCloseBrowser, Event.nextState, Event.nextHandle, Event.nextCallback]
  | CloseBrowser c =>
    cases br with
    | none => simp [step, CloseBrowser] at hs
    | some b =>
      simp only [step, CloseBrowser, Option.some.injEq, Prod.mk.injEq] at hs
      obtain ⟨rfl, -⟩ := hs
      simp [Event.nextState, Event.nextHandle, Event.nextCallback]
  | DoClose b =>
    simp only [step, DoClose] at hs
    split at hs <;> simp only [Option.some.injEq, Prod.mk.injEq] at hs <;>
      obtain ⟨rfl, -⟩ := hs <;> simp [Event.isCloseBrowser, Event.nextState, Event.nextHandle, Event.nextCallback]
  | OnBeforeClose b =>
    simp only [step, OnBeforeClose] at hs
    cases cb <;> simp only [Option.some.injEq, Prod.mk.injEq] at hs <;>
      obtain ⟨rfl, -⟩ := hs <;> simp [Event.isCloseBrowser, Event.nextState, Event.nextHandle, Event.nextCallback]
  | OnLoadStart b f t =>
    simp only [step, OnLoadStart] at hs
    cases st <;> cases hf : f.IsMain <;>
      simp [hf] at hs <;> obtain ⟨rfl, -⟩ := hs <;> simp [Event.isCloseBrowser, Event.nextState, Event.nextHandle, Event.nextCallback, hf]
  | OnLoadEnd b f s =>
    simp only [step, OnLoadEnd] at hs
    cases hf : f.IsMain <;> simp [hf] at hs <;> obtain ⟨rfl, -⟩ := hs <;>
      simp [Event.isCloseBrowser, Event.nextState, Event.nextHandle, Event.nextCallback]
  | OnLoadError b f c t u =>
    simp only [step, OnLoadError] at hs
    cases st <;> cases hf : f.IsMain <;>
      simp [hf] at hs <;> obtain ⟨rfl, -⟩ := hs <;> simp [Event.isCloseBrowser, Event.nextState, Event.nextHandle, Event.nextCallback]
  | SetWebviewSize w1 h2 =>
    simp only [step, SetWebviewSize] at hs
    split at hs <;> simp only [Option.some.injEq, Prod.mk.injEq] at hs <;>
      obtain ⟨rfl, -⟩ := hs <;> simp [Event.isCloseBrowser, Event.nextState, Event.nextHandle, Event.nextCallback]
  | GetViewRect b r =>
    simp only [step, Option.some.injEq, Prod.mk.injEq] at hs
    obtain ⟨rfl, -⟩ := hs
    simp [Event.isCloseBrowser, Event.nextState, Event.nextHandle, Event.nextCallback]
  | OnPaint b t d buf w1 h2 =>
    simp only [step, OnPaint, Option.some.injEq, Prod.mk.injEq] at hs
    obtain ⟨rfl, -⟩ := hs
    simp [Event.isCloseBrowser, Event.nextState, Event.nextHandle, Event.nextCallback]
  | OnProcessMessageReceived b f s m =>
    simp only [step, OnProcessMessageReceived] at hs
    split at hs <;> simp only [Option.some.injEq, Prod.mk.injEq] at hs <;>
      obtain ⟨rfl, -⟩ := hs <;> simp [Event.isCloseBrowser, Event.nextState, Event.nextHandle, Event.nextCallback]
  | OnBeforePopup b u =>
    simp only [step, OnBeforePopup, Option.some.injEq, Prod.mk.injEq] at hs
    obtain ⟨rfl, -⟩ := hs
    simp [Event.isCloseBrowser, Event.nextState, Event.nextHandle, Event.nextCallback]
  | OnPopupShow b s =>
    simp only [step, OnPopupShow, Option.some.injEq, Prod.mk.injEq] at hs
    obtain ⟨rfl, -⟩ := hs
    simp [Event.isCloseBrowser, Event.nextState, Event.nextHandle, Event.nextCallback]
  | OnPopupSize b r =>
    simp only [step, OnPopupSize, Option.some.injEq, Prod.mk.injEq] at hs
    obtain ⟨rfl, -⟩ := hs
    simp [Event.isCloseBrowser, Event.nextState, Event.nextHandle, Event.nextCallback]

/-- Every handler observed in a run satisfies an invariant that holds at the start
and is kept by each delivered event of the sequence. -/
theorem exec_invariant (env : Env R) (P : Handler R → Prop) (Q : Event → Prop)
    (hstep : ∀ h h1 fx e, step env h e = some (h1, fx) → Q e → P h → P h1)
    (es : List Event) :
    ∀ h : Handler R, P h → (∀ e ∈ es, Q e) → ∀ h1 ∈ exec env h es, P h1 := by
  induction es with
  | nil =>
    intro h hp _ h1 hm
    simp only [exec, List.mem_singleton] at hm
    subst hm
    exact hp
  | cons e es ih =>
    intro h hp hq h1 hm
    cases hs : step env h e with
    | none =>
      simp only [exec, hs, List.mem_singleton] at hm
      subst hm
      exact hp
    | some p =>
      obtain ⟨h2, fx⟩ := p
      simp only [exec, hs, List.mem_cons] at hm
      rcases hm with rfl | hm
      · exact hp
      · exact ih h2 (hstep h h2 fx e hs (hq e (List.mem_cons_self _ _)) hp)
          (fun e1 he1 => hq e1 (List.mem_cons_of_mem _ he1)) h1 hm

/-! ## Handle, callback and ready-count invariants -/

/-- A delivered event that is not an `OnAfterCreated` with a null browser keeps the
invariant `handleIffLive`. -/
theorem step_handleIffLive (env : Env R) (h h1 : Handler R) (fx : List (Obs R))
    (e : Event) (hs : step env h e = some (h1, fx)) (hq : e.isNullCreated = false)
    (hinv : handleIffLive h) : handleIffLive h1 := by
  obtain ⟨-, -, hb, hcl, hst⟩ := step_fields env h h1 fx e hs
  clear hs
  unfold handleIffLive at hinv ⊢
  rw [hb, hst]
  cases e with
  | OnAfterCreated b =>
    cases b with
    | none => simp [Event.isNullCreated] at hq
    | some b1 => simp [Event.nextHandle, Event.nextState, BrowserState.isLive]
  | CloseBrowser c =>
    simp [Event.nextHandle, Event.nextState, BrowserState.isLive, hcl rfl]
  | OnBeforeClose b =>
    simp [Event.nextHandle, Event.nextState, BrowserState.isLive]
  | OnLoadStart b f t =>
    simp only [Event.nextHandle, Event.nextState]
    split
    · rename_i hc
      rw [hinv, hc.2]
      simp [BrowserState.isLive]
    · exact hinv
  | OnLoadError b f c t u =>
    simp only [Event.nextHandle, Event.nextState]
    split
    · rename_i hc
      rw [hinv, hc]
      simp [BrowserState.isLive]
    · exact hinv
  | _ => exact hinv

/-- Under `createdOnlyEarly`, every handler observed in a run that stores a close
callback is in state `Closing` or `Closed`, when this holds at the start. -/
theorem exec_callback_late (env : Env R) (es : List Event) :
    ∀ h : Handler R, closedNoHandle h →
      (h.close_browser_cb_ ≠ none → 3 ≤ h.browser_state_.rank) →
      createdOnlyEarly env h es = true →
      ∀ h1 ∈ exec env h es, h1.close_browser_cb_ ≠ none → 3 ≤ h1.browser_state_.rank := by
  induction es with
  | nil =>
    intro h _ hp _ h1 hm
    simp only [exec, List.mem_singleton] at hm
    subst hm
    exact hp
  | cons e es ih =>
    intro h hinv hp hc h1 hm
    cases hs : step env h e with
    | none =>
      simp only [exec, hs, List.mem_singleton] at hm
      subst hm
      exact hp
    | some p =>
      obtain ⟨h2, fx⟩ := p
      simp only [exec, hs, List.mem_cons] at hm
      rcases hm with rfl | hm
      · exact hp
      · simp only [createdOnlyEarly, hs, Bool.and_eq_true] at hc
        have hearly : ∀ b, e = Event.OnAfterCreated b → h.browser_state_.rank ≤ 1 := by
          intro b hb
          subst hb
          simpa using hc.1
        obtain ⟨hle, hinv2⟩ := step_rank_le env h h2 fx e hs hinv hearly
        obtain ⟨-, hcb, -, -, hst⟩ := step_fields env h h2 fx e hs
        refine ih h2 hinv2 ?_ hc.2 h1 hm
        intro hne
        by_cases hcl : e.isCloseBrowser = true
        · cases e <;> simp [Event.isCloseBrowser] at hcl
          rw [hst]
          simp [Event.nextState, BrowserState.rank]
        · have hsame : h2.close_browser_cb_ = h.close_browser_cb_ := by
            rw [hcb]
            cases e <;> simp [Event.isCloseBrowser] at hcl <;> rfl
          rw [hsame] at hne
          exact Nat.le_trans (hp hne) hle

/-- The ready notifications of a run are bounded by the `OnAfterCreated` events of the
sequence, plus one when the run starts in `Created`. -/
theorem readyCount_le_created (env : Env R) (es : List Event) :
    ∀ h : Handler R, readyCount (effects env h es) ≤
      (if h.browser_state_ = BrowserState.kCreated then 1 else 0) +
        es.countP (fun e => e.isOnAfterCreated) := by
  induction es with
  | nil => intro h; simp [effects, readyCount]
  | cons e es ih =>
    intro h
    cases hs : step env h e with
    | none => simp [effects_cons_none env h e es hs, readyCount]
    | some p =>
      obtain ⟨h1, fx⟩ := p
      obtain ⟨hcount, hready⟩ := step_readyCount env h h1 fx e hs
      have hst := (step_fields env h h1 fx e hs).2.2.2.2
      rw [effects_cons_some env h h1 fx e es hs, readyCount_append, hcount,
        List.countP_cons]
      have ih1 := ih h1
      by_cases ht : h.browser_state_ = BrowserState.kCreated ∧ e.isReadyTrigger = true
      · have h1r : h1.browser_state_ = BrowserState.kReady := hready ht
        rw [h1r] at ih1
        simp only [ht, and_self, if_true] at ih1 ⊢
        simp only [reduceCtorEq, if_false] at ih1
        omega
      · rw [if_neg ht]
        by_cases h1c : h1.browser_state_ = BrowserState.kCreated
        · rw [if_pos h1c] at ih1
          by_cases hoac : e.isOnAfterCreated = true
          · rw [if_pos hoac]
            omega
          · have hsame : h.browser_state_ = BrowserState.kCreated := by
              rw [hst] at h1c
              clear hs hready hcount ih1 ht
              cases e with
              | OnAfterCreated b => simp [Event.isOnAfterCreated] at hoac
              | OnLoadStart b f t =>
                simp only [Event.nextState] at h1c
                split at h1c
                · cases h1c
                · exact h1c
              | OnLoadError b f c t u =>
                simp only [Event.nextState] at h1c
                split at h1c
                · cases h1c
                · exact h1c
              | CloseBrowser c => cases h1c
              | OnBeforeClose b => cases h1c
              | _ => exact h1c
            rw [if_pos hsame]
            omega
        · rw [if_neg h1c] at ih1
          omega

/-- The callback stored after a completed run is the one passed to the most recent
`CloseBrowser`; the session identifier does not change. -/
theorem deliver_callback (env : Env R) (es : List Event) :
    ∀ h h1 : Handler R, deliver env h es = some h1 →
      h1.close_browser_cb_ = lastCloseCallback h.close_browser_cb_ es ∧
      h1.webview_id_ = h.webview_id_ := by
  induction es with
  | nil =>
    intro h h1 hd
    simp only [deliver, Option.some.injEq] at hd
    subst hd
    exact ⟨rfl, rfl⟩
  | cons e es ih =>
    intro h h1 hd
    cases hs : step env h e with
    | none => simp [deliver, hs] at hd
    | some p =>
      obtain ⟨h2, fx⟩ := p
      simp only [deliver, hs] at hd
      obtain ⟨hid, hcb, -, -, -⟩ := step_fields env h h2 fx e hs
      obtain ⟨ih1, ih2⟩ := ih h2 h1 hd
      rw [ih1, ih2, hid, hcb]
      refine ⟨?_, rfl⟩
      cases e <;> rfl

/-! ## Claims -/

/-- C1 (as stated, refuted): delivering `OnAfterCreated`, a main-frame `OnLoadStart`
and `OnAfterCreated` again to a freshly constructed handler makes it observe
`BeforeCreated, Created, Ready, Created`: the state moves back from `Ready` to
`Created`, and the distinct states observed are not a subsequence of the lifecycle
order. -/
theorem C1_state_moves_back :
    observedStates sampleEnv sampleFresh
      [Event.OnAfterCreated (some 5), Event.OnLoadStart (some 5) mainFrame 0,
       Event.OnAfterCreated (some 5)] =
      [BrowserState.kBeforeCreated, BrowserState.kCreated, BrowserState.kReady,
       BrowserState.kCreated] ∧
    ¬ (distinctStates sampleEnv sampleFresh
      [Event.OnAfterCreated (some 5), Event.OnLoadStart (some 5) mainFrame 0,
       Event.OnAfterCreated (some 5)]).Sublist lifecycleOrder := by
  constructor
  · rfl
  · decide

/-- C1 (amended): for every event sequence delivered to a freshly constructed handler
in which each `OnAfterCreated` arrives while the state is still `BeforeCreated` or
`Created`, the observed states never move to an earlier state of the order
`BeforeCreated < Created < Ready < Closing < Closed`, and the distinct states
observed form a subsequence of that order. -/
theorem C1_lifecycle_forward (env : Env R) (id : WebviewId)
    (params : WebviewCreationParams) (es : List Event)
    (hc : createdOnlyEarly env (FlutterWebviewHandler env id params).1 es = true) :
    (observedStates env (FlutterWebviewHandler env id params).1 es).Pairwise
      (fun a b => a.rank ≤ b.rank) ∧
    (distinctStates env (FlutterWebviewHandler env id params).1 es).Sublist
      lifecycleOrder := by
  have hs := observedStates_sorted env _ es (fresh_closedNoHandle env id params) hc
  exact ⟨hs, destutter_sublist_lifecycleOrder _ hs⟩

/-- C1 witness: a full session `OnAfterCreated, OnLoadStart, CloseBrowser, DoClose,
OnBeforeClose` meets the proviso and visits all five states in order. -/
theorem C1_lifecycle_forward_witness :
    createdOnlyEarly sampleEnv (FlutterWebviewHandler sampleEnv 1 ⟨0, 800, 600⟩).1
      [Event.OnAfterCreated (some 5), Event.OnLoadStart (some 5) mainFrame 0,
       Event.CloseBrowser (some 9), Event.DoClose (some 5),
       Event.OnBeforeClose (some 5)] = true ∧
    distinctStates sampleEnv (FlutterWebviewHandler sampleEnv 1 ⟨0, 800, 600⟩).1
      [Event.OnAfterCreated (some 5), Event.OnLoadStart (some 5) mainFrame 0,
       Event.CloseBrowser (some 9), Event.DoClose (some 5),
       Event.OnBeforeClose (some 5)] = lifecycleOrder ∧
    ((observedStates sampleEnv (FlutterWebviewHandler sampleEnv 1 ⟨0, 800, 600⟩).1
      [Event.OnAfterCreated (some 5), Event.OnLoadStart (some 5) mainFrame 0,
       Event.CloseBrowser (some 9), Event.DoClose (some 5),
       Event.OnBeforeClose (some 5)]).Pairwise (fun a b => a.rank ≤ b.rank) ∧
     (distinctStates sampleEnv (FlutterWebviewHandler sampleEnv 1 ⟨0, 800, 600⟩).1
      [Event.OnAfterCreated (some 5), Event.OnLoadStart (some 5) mainFrame 0,
       Event.CloseBrowser (some 9), Event.DoClose (some 5),
       Event.OnBeforeClose (some 5)]).Sublist lifecycleOrder) :=
  ⟨by decide, by decide, C1_lifecycle_forward sampleEnv 1 ⟨0, 800, 600⟩ _ (by decide)⟩

/-- C2 (as stated, refuted): when `OnAfterCreated` arrives a second time after the
handler became `Ready`, the next load error fires `on_browser_ready_` again: the
callback is invoked twice over the sequence. -/
theorem C2_ready_fires_twice :
    readyCount (effects sampleEnv sampleFresh
      [Event.OnAfterCreated (some 5), Event.OnLoadStart (some 5) mainFrame 0,
       Event.OnAfterCreated (some 5),
       Event.OnLoadError (some 5) mainFrame (-3) "ERR_ABORTED" "https://example.com/"]) = 2 := by
  decide

/-- C2 (amended): for every event sequence delivered to a freshly constructed handler
in which each `OnAfterCreated` arrives while the state is still `BeforeCreated` or
`Created`, `on_browser_ready_` is invoked at most once over the whole sequence, and
exactly once whenever some main-frame `OnLoadStart` or some `OnLoadError` is
delivered while the state is `Created`, however many load events follow. -/
theorem C2_ready_once (env : Env R) (id : WebviewId)
    (params : WebviewCreationParams) (es : List Event)
    (hc : createdOnlyEarly env (FlutterWebviewHandler env id params).1 es = true) :
    readyCount (effects env (FlutterWebviewHandler env id params).1 es) ≤ 1 ∧
    (readyTriggered env (FlutterWebviewHandler env id params).1 es = true →
      readyCount (effects env (FlutterWebviewHandler env id params).1 es) = 1) := by
  have h := (readyCount_effects env es _ (fresh_closedNoHandle env id params) hc).1
  rw [h]
  constructor
  · split <;> simp
  · intro ht
    simp [ht]

/-- C2 witness: `OnAfterCreated`, then a load error, then two main-frame load starts
and another load error: the ready callback fires exactly once. -/
theorem C2_ready_once_witness :
    createdOnlyEarly sampleEnv (FlutterWebviewHandler sampleEnv 1 ⟨0, 800, 600⟩).1
      [Event.OnAfterCreated (some 5),
       Event.OnLoadError (some 5) subFrame (-3) "ERR_ABORTED" "https://example.com/ad",
       Event.OnLoadStart (some 5) mainFrame 0, Event.OnLoadStart (some 5) mainFrame 0,
       Event.OnLoadError (some 5) mainFrame (-3) "ERR_ABORTED" "https://example.com/"] = true ∧
    readyTriggered sampleEnv (FlutterWebviewHandler sampleEnv 1 ⟨0, 800, 600⟩).1
      [Event.OnAfterCreated (some 5),
       Event.OnLoadError (some 5) subFrame (-3) "ERR_ABORTED" "https://example.com/ad",
       Event.OnLoadStart (some 5) mainFrame 0, Event.OnLoadStart (some 5) mainFrame 0,
       Event.OnLoadError (some 5) mainFrame (-3) "ERR_ABORTED" "https://example.com/"] = true ∧
    readyCount (effects sampleEnv (FlutterWebviewHandler sampleEnv 1 ⟨0, 800, 600⟩).1
      [Event.OnAfterCreated (some 5),
       Event.OnLoadError (some 5) subFrame (-3) "ERR_ABORTED" "https://example.com/ad",
       Event.OnLoadStart (some 5) mainFrame 0, Event.OnLoadStart (some 5) mainFrame 0,
       Event.OnLoadError (some 5) mainFrame (-3) "ERR_ABORTED" "https://example.com/"]) = 1 :=
  ⟨by decide, by decide,
    (C2_ready_once sampleEnv 1 ⟨0, 800, 600⟩ _ (by decide)).2 (by decide)⟩

/-- C3: `DoClose` allows the close (returns `false`) exactly when the state is
`Closing` and denies it (returns `true`) in every other state; either way all
handler fields are unchanged.  A `CloseBrowser` issued in state `Ready` with a
browser handle completes and the next `DoClose` allows, as after any completed
`CloseBrowser`; and on a freshly constructed handler that received events but never
a `CloseBrowser`, `DoClose` denies. -/
theorem C3_DoClose_gate (env : Env R) (id : WebviewId) (params : WebviewCreationParams)
    (es : List Event) (h : Handler R) (browser : CefRefPtr) :
    ((DoClose h browser).1 = false ↔ h.browser_state_ = BrowserState.kClosing) ∧
    (h.browser_state_ ≠ BrowserState.kClosing → (DoClose h browser).1 = true) ∧
    (DoClose h browser).2.1 = h ∧
    (∀ cb b, h.browser_state_ = BrowserState.kReady → h.browser_ = some b →
      ∃ h1 fx, CloseBrowser h cb = some (h1, fx) ∧ (DoClose h1 browser).1 = false) ∧
    (∀ cb h1 fx, CloseBrowser h cb = some (h1, fx) → (DoClose h1 browser).1 = false) ∧
    ((∀ e ∈ es, e.isCloseBrowser = false) →
      ∀ h1 ∈ exec env (FlutterWebviewHandler env id params).1 es,
        (DoClose h1 browser).1 = true ∧ (DoClose h1 browser).2.1 = h1) := by
  have hgate : ∀ g : Handler R,
      ((DoClose g browser).1 = false ↔ g.browser_state_ = BrowserState.kClosing) ∧
      (DoClose g browser).2.1 = g := by
    intro g
    unfold DoClose
    split <;> simp_all
  have hclose : ∀ cb h1 fx, CloseBrowser h cb = some (h1, fx) →
      (DoClose h1 browser).1 = false := by
    intro cb h1 fx hcb
    refine (hgate h1).1.mpr ?_
    unfold CloseBrowser at hcb
    simp only at hcb
    split at hcb
    · cases hcb
    · simp only [Option.some.injEq, Prod.mk.injEq] at hcb
      obtain ⟨rfl, -⟩ := hcb
      rfl
  refine ⟨(hgate h).1, ?_, (hgate h).2, ?_, hclose, ?_⟩
  · intro hn
    cases hd : (DoClose h browser).1 with
    | true => rfl
    | false => exact absurd ((hgate h).1.mp hd) hn
  · intro cb b _ hb
    have hsome : CloseBrowser h cb =
        some ({ h with close_browser_cb_ := cb, browser_state_ := BrowserState.kClosing },
          [⟨Effect.host_CloseBrowser b false,
            { h with close_browser_cb_ := cb, browser_state_ := BrowserState.kClosing }⟩]) := by
      simp [CloseBrowser, hb]
    exact ⟨_, _, hsome, hclose cb _ _ hsome⟩
  · intro hall h1 hm
    have hn := exec_not_closing env es _
      (by rw [(fresh_state env id params).1]; simp) hall h1 hm
    refine ⟨?_, (hgate h1).2⟩
    cases hd : (DoClose h1 browser).1 with
    | true => rfl
    | false => exact absurd ((hgate h1).1.mp hd) hn

/-- C3 witness: from the sample `Ready` handler `CloseBrowser` completes and `DoClose`
then allows; after `OnAfterCreated` and a load start only, `DoClose` denies. -/
theorem C3_DoClose_gate_witness :
    sampleReady.browser_state_ = BrowserState.kReady ∧
    (∃ h1 fx, CloseBrowser sampleReady (some 9) = some (h1, fx) ∧
      (DoClose h1 (some 5)).1 = false) ∧
    (DoClose sampleReady (some 5)).1 = true ∧
    (DoClose sampleReady (some 5)).2.1 = sampleReady :=
  ⟨by decide,
   (C3_DoClose_gate sampleEnv 1 ⟨0, 800, 600⟩
      [Event.OnAfterCreated (some 5), Event.OnLoadStart (some 5) mainFrame 0]
      sampleReady (some 5)).2.2.2.1 (some 9) 5 (by decide) (by decide),
   (C3_DoClose_gate sampleEnv 1 ⟨0, 800, 600⟩
      [Event.OnAfterCreated (some 5), Event.OnLoadStart (some 5) mainFrame 0]
      sampleReady (some 5)).2.2.2.2.2 (by decide) sampleReady (by decide)⟩

/-- C4: on a handler in state `Created` or `Ready` holding browser handle `b`,
`CloseBrowser(cb)` completes, sets the state to `Closing`, stores `cb`, performs
exactly one effect, the close request to the browser host with `force_close = false`,
invokes no host callback and leaves the handle, the viewport and every other field
unchanged. -/
theorem C4_CloseBrowser (h : Handler R) (cb : Callback) (b : Browser)
    (hst : h.browser_state_ = BrowserState.kCreated ∨ h.browser_state_ = BrowserState.kReady)
    (hb : h.browser_ = some b) :
    ∃ h1 fx, CloseBrowser h cb = some (h1, fx) ∧
      h1.browser_state_ = BrowserState.kClosing ∧
      h1.close_browser_cb_ = cb ∧
      fx.map (fun o => o.eff) = [Effect.host_CloseBrowser b false] ∧
      (∀ o ∈ fx, o.eff.isHostCallback = false) ∧
      h1.browser_ = h.browser_ ∧
      h1.webview_width_ = h.webview_width_ ∧
      h1.webview_height_ = h.webview_height_ ∧
      h1 = { h with close_browser_cb_ := cb, browser_state_ := BrowserState.kClosing } := by
  have _ := hst
  refine ⟨{ h with close_browser_cb_ := cb, browser_state_ := BrowserState.kClosing },
    [⟨Effect.host_CloseBrowser b false,
      { h with close_browser_cb_ := cb, browser_state_ := BrowserState.kClosing }⟩],
    ?_, rfl, rfl, rfl, ?_, rfl, rfl, rfl, rfl⟩
  · simp [CloseBrowser, hb]
  · intro o ho
    simp only [List.mem_singleton] at ho
    subst ho
    rfl

/-- C4 witness: the sample `Ready` handler holding browser 5, closed with callback 9. -/
theorem C4_CloseBrowser_witness :
    (sampleReady.browser_state_ = BrowserState.kCreated ∨
      sampleReady.browser_state_ = BrowserState.kReady) ∧
    sampleReady.browser_ = some 5 ∧
    ∃ h1 fx, CloseBrowser sampleReady (some 9) = some (h1, fx) ∧
      h1.browser_state_ = BrowserState.kClosing ∧
      h1.close_browser_cb_ = some 9 ∧
      fx.map (fun o => o.eff) = [Effect.host_CloseBrowser 5 false] ∧
      (∀ o ∈ fx, o.eff.isHostCallback = false) ∧
      h1.browser_ = sampleReady.browser_ ∧
      h1.webview_width_ = sampleReady.webview_width_ ∧
      h1.webview_height_ = sampleReady.webview_height_ ∧
      h1 = { sampleReady with close_browser_cb_ := some 9,
                              browser_state_ := BrowserState.kClosing } :=
  ⟨by decide, by decide,
   C4_CloseBrowser sampleReady (some 9) 5 (by decide) (by decide)⟩

/-- C5 (as stated, refuted): when `OnBeforeClose` is called on a handler that is
already `Closed`, the state seen at the moment `on_before_close_` runs is `Closed`. -/
theorem C5_callback_sees_closed :
    sampleClosed.browser_state_ = BrowserState.kClosed ∧
    (OnBeforeClose sampleClosed (some 5)).2.map
        (fun o => (o.eff, o.seen.browser_, o.seen.browser_state_)) =
      [(Effect.on_before_close 1 (some 5), none, BrowserState.kClosed)] := by
  constructor <;> decide

/-- C5 (amended): for every handler `h` and browser argument `b`, `OnBeforeClose(b)`
performs, in this order: the stored handle is cleared; `on_before_close_(webview_id_, b)`
is invoked once, seeing a null handle and the state the handler had before the call
(so not `Closed` unless the handler already was); the state becomes `Closed`; then the
stored close-completion callback is invoked exactly once if one is stored and not at
all if none is stored. -/
theorem C5_OnBeforeClose_order (h : Handler R) (b : CefRefPtr) :
    (OnBeforeClose h b).1 =
      { h with browser_ := none, browser_state_ := BrowserState.kClosed } ∧
    (OnBeforeClose h b).2 =
      (⟨Effect.on_before_close h.webview_id_ b, { h with browser_ := none }⟩ : Obs R) ::
        (match h.close_browser_cb_ with
          | some cb => [⟨Effect.close_browser_cb cb,
              { h with browser_ := none, browser_state_ := BrowserState.kClosed }⟩]
          | none => []) ∧
    (∀ o ∈ (OnBeforeClose h b).2, o.eff = Effect.on_before_close h.webview_id_ b →
      o.seen.browser_ = none ∧ o.seen.browser_state_ = h.browser_state_ ∧
      (h.browser_state_ ≠ BrowserState.kClosed →
        o.seen.browser_state_ ≠ BrowserState.kClosed)) ∧
    (∀ cb, h.close_browser_cb_ = some cb →
      (OnBeforeClose h b).2.map (fun o => o.eff) =
        [Effect.on_before_close h.webview_id_ b, Effect.close_browser_cb cb]) ∧
    (h.close_browser_cb_ = none →
      (OnBeforeClose h b).2.map (fun o => o.eff) =
        [Effect.on_before_close h.webview_id_ b]) := by
  obtain ⟨cb, id, st, br, rd, w, ht⟩ := h
  cases cb with
  | none =>
    refine ⟨rfl, rfl, ?_, ?_, ?_⟩
    · intro o ho _
      simp only [OnBeforeClose, List.mem_singleton] at ho
      subst ho
      exact ⟨rfl, rfl, fun hn => hn⟩
    · intro c hc
      cases hc
    · intro _
      rfl
  | some c =>
    refine ⟨rfl, rfl, ?_, ?_, ?_⟩
    · intro o ho he
      simp only [OnBeforeClose, List.mem_cons, List.mem_singleton, List.not_mem_nil,
        or_false] at ho
      rcases ho with rfl | rfl
      · exact ⟨rfl, rfl, fun hn => hn⟩
      · cases he
    · intro c1 hc
      simp only [Option.some.injEq] at hc
      subst hc
      rfl
    · intro hc
      cases hc

/-- C5 witness: closing the sample `Ready` handler with stored callback 9. -/
theorem C5_OnBeforeClose_order_witness :
    ({ sampleReady with close_browser_cb_ := some 9 } : Handler SampleRenderer).close_browser_cb_
      = some 9 ∧
    (OnBeforeClose { sampleReady with close_browser_cb_ := some 9 } (some 5)).2.map
        (fun o => o.eff) =
      [Effect.on_before_close
        ({ sampleReady with close_browser_cb_ := some 9 } : Handler SampleRenderer).webview_id_
        (some 5), Effect.close_browser_cb 9] :=
  ⟨rfl, (C5_OnBeforeClose_order { sampleReady with close_browser_cb_ := some 9 }
    (some 5)).2.2.2.1 9 rfl⟩

/-- C6: if `w <= 0` or `h <= 0` then `SetWebviewSize(w, h)` leaves every field of the
handler unchanged and records an error, as `SetWebviewSize(0, 100)` does; otherwise
the stored viewport becomes exactly `(w, h)`, no other field changes, nothing is
recorded, and the next `GetViewRect` reports width `w` and height `h`. -/
theorem C6_SetWebviewSize (h : Handler R) (w ht : Int) (browser : CefRefPtr)
    (rect : CefRect) :
    (w ≤ 0 ∨ ht ≤ 0 →
      (SetWebviewSize h w ht).1 = h ∧
      (SetWebviewSize h w ht).2.map (fun o => o.eff) =
        [Effect.log Severity.ERROR "SetWebviewSize"]) ∧
    (SetWebviewSize h 0 100).1 = h ∧
    (0 < w ∧ 0 < ht →
      (SetWebviewSize h w ht).1 = { h with webview_width_ := w, webview_height_ := ht } ∧
      (SetWebviewSize h w ht).2 = [] ∧
      (GetViewRect (SetWebviewSize h w ht).1 browser rect).width = w ∧
      (GetViewRect (SetWebviewSize h w ht).1 browser rect).height = ht ∧
      GetViewRect (SetWebviewSize h w ht).1 browser rect =
        { rect with width := w, height := ht }) := by
  refine ⟨?_, ?_, ?_⟩
  · intro hbad
    simp [SetWebviewSize, hbad]
  · simp [SetWebviewSize]
  · intro hpos
    have hgood : ¬ (w ≤ 0 ∨ ht ≤ 0) := by omega
    simp [SetWebviewSize, hgood, GetViewRect]

/-- C6 witness: on the sample `Ready` handler (viewport 800 x 600), `(0, 100)` is
rejected and `(1024, 768)` is stored and reported. -/
theorem C6_SetWebviewSize_witness :
    ((SetWebviewSize sampleReady 0 100).1 = sampleReady ∧
      (SetWebviewSize sampleReady 0 100).2.map (fun o => o.eff) =
        [Effect.log Severity.ERROR "SetWebviewSize"]) ∧
    ((SetWebviewSize sampleReady 1024 768).1 =
        { sampleReady with webview_width_ := 1024, webview_height_ := 768 } ∧
      (SetWebviewSize sampleReady 1024 768).2 = [] ∧
      (GetViewRect (SetWebviewSize sampleReady 1024 768).1 (some 5) ⟨0, 0, 1, 1⟩).width
        = 1024 ∧
      (GetViewRect (SetWebviewSize sampleReady 1024 768).1 (some 5) ⟨0, 0, 1, 1⟩).height
        = 768 ∧
      GetViewRect (SetWebviewSize sampleReady 1024 768).1 (some 5) ⟨0, 0, 1, 1⟩ =
        { (⟨0, 0, 1, 1⟩ : CefRect) with width := 1024, height := 768 }) :=
  ⟨(C6_SetWebviewSize sampleReady 0 100 (some 5) ⟨0, 0, 1, 1⟩).1 (Or.inl (by decide)),
   (C6_SetWebviewSize sampleReady 1024 768 (some 5) ⟨0, 0, 1, 1⟩).2.2
     ⟨by decide, by decide⟩⟩

/-- C7: for all construction parameters `(w, h)` the fresh handler stores width
`w` if `w > 0` and 1 otherwise, height `h` if `h > 0` and 1 otherwise, each corrected
independently; exactly one warning is recorded when `w <= 0` or `h <= 0` and nothing
is recorded otherwise; the state is `BeforeCreated`, no browser handle and no close
callback are stored.  Parameters `(0, -5)` give the viewport `(1, 1)` and a warning. -/
theorem C7_constructor (env : Env R) (id : WebviewId) (params : WebviewCreationParams) :
    (FlutterWebviewHandler env id params).1.webview_width_ =
      (if params.width > 0 then params.width else 1) ∧
    (FlutterWebviewHandler env id params).1.webview_height_ =
      (if params.height > 0 then params.height else 1) ∧
    (FlutterWebviewHandler env id params).2.map (fun o => o.eff) =
      (if params.width ≤ 0 ∨ params.height ≤ 0
        then [Effect.log Severity.WARNING "FlutterWebviewHandler"] else []) ∧
    ((∃ o ∈ (FlutterWebviewHandler env id params).2, o.eff =
        Effect.log Severity.WARNING "FlutterWebviewHandler") ↔
      (params.width ≤ 0 ∨ params.height ≤ 0)) ∧
    (FlutterWebviewHandler env id params).1.browser_state_ = BrowserState.kBeforeCreated ∧
    (FlutterWebviewHandler env id params).1.browser_ = none ∧
    (FlutterWebviewHandler env id params).1.close_browser_cb_ = none ∧
    (FlutterWebviewHandler env id ⟨params.native_texture_id, 0, -5⟩).1.webview_width_ = 1 ∧
    (FlutterWebviewHandler env id ⟨params.native_texture_id, 0, -5⟩).1.webview_height_ = 1 ∧
    (FlutterWebviewHandler env id ⟨params.native_texture_id, 0, -5⟩).2.map (fun o => o.eff) =
      [Effect.log Severity.WARNING "FlutterWebviewHandler"] := by
  have hfx : (FlutterWebviewHandler env id params).2.map (fun o => o.eff) =
      (if params.width ≤ 0 ∨ params.height ≤ 0
        then [Effect.log Severity.WARNING "FlutterWebviewHandler"] else []) := by
    unfold FlutterWebviewHandler
    simp only
    split <;> rfl
  have hex : (∃ o ∈ (FlutterWebviewHandler env id params).2, o.eff =
        Effect.log Severity.WARNING "FlutterWebviewHandler") ↔
      (params.width ≤ 0 ∨ params.height ≤ 0) := by
    have hmem : (∃ o ∈ (FlutterWebviewHandler env id params).2, o.eff =
        Effect.log Severity.WARNING "FlutterWebviewHandler") ↔
        Effect.log Severity.WARNING "FlutterWebviewHandler" ∈
          (FlutterWebviewHandler env id params).2.map (fun o => o.eff) := by
      simp [List.mem_map]
    rw [hmem, hfx]
    split <;> simp_all
  refine ⟨(fresh_viewport env id params).1, (fresh_viewport env id params).2, hfx, hex,
    (fresh_state env id params).1, (fresh_state env id params).2.1,
    (fresh_state env id params).2.2.1, ?_, ?_, ?_⟩
  · simp [FlutterWebviewHandler]
  · simp [FlutterWebviewHandler]
  · simp [FlutterWebviewHandler]

/-- C8: for all construction parameters and every finite sequence of handler events,
every handler observed (after construction and after each delivered event) stores a
width and a height of at least 1, and `GetViewRect` on it reports a rectangle with
width and height at least 1. -/
theorem C8_viewport_positive (env : Env R) (id : WebviewId)
    (params : WebviewCreationParams) (es : List Event) (browser : CefRefPtr)
    (rect : CefRect) :
    ∀ h ∈ exec env (FlutterWebviewHandler env id params).1 es,
      1 ≤ h.webview_width_ ∧ 1 ≤ h.webview_height_ ∧
      1 ≤ (GetViewRect h browser rect).width ∧ 1 ≤ (GetViewRect h browser rect).height := by
  intro h hm
  have hfresh : viewportPositive (FlutterWebviewHandler env id params).1 := by
    obtain ⟨hw, hh⟩ := fresh_viewport env id params
    simp only [viewportPositive, hw, hh]
    constructor <;> split <;> omega
  have hv := exec_viewportPositive env es _ hfresh h hm
  exact ⟨hv.1, hv.2, hv.1, hv.2⟩

/-- C8 witness: constructed with `(0, -5)`, then resized with `(0, 100)`, `(-3, -3)`
and `(640, 480)`: the last observed handler stores `640 x 480`. -/
theorem C8_viewport_positive_witness :
    (exec sampleEnv (FlutterWebviewHandler sampleEnv 1 ⟨0, 0, -5⟩).1
      [Event.SetWebviewSize 0 100, Event.SetWebviewSize (-3) (-3),
       Event.SetWebviewSize 640 480]).getLast? =
      some { (FlutterWebviewHandler sampleEnv 1 ⟨0, 0, -5⟩).1 with
        webview_width_ := 640, webview_height_ := 480 } ∧
    (1 ≤ ({ (FlutterWebviewHandler sampleEnv 1 ⟨0, 0, -5⟩).1 with
        webview_width_ := 640, webview_height_ := 480 } :
          Handler SampleRenderer).webview_width_ ∧
     1 ≤ ({ (FlutterWebviewHandler sampleEnv 1 ⟨0, 0, -5⟩).1 with
        webview_width_ := 640, webview_height_ := 480 } :
          Handler SampleRenderer).webview_height_ ∧
     1 ≤ (GetViewRect ({ (FlutterWebviewHandler sampleEnv 1 ⟨0, 0, -5⟩).1 with
        webview_width_ := 640, webview_height_ := 480 } : Handler SampleRenderer)
          none ⟨0, 0, 0, 0⟩).width ∧
     1 ≤ (GetViewRect ({ (FlutterWebviewHandler sampleEnv 1 ⟨0, 0, -5⟩).1 with
        webview_width_ := 640, webview_height_ := 480 } : Handler SampleRenderer)
          none ⟨0, 0, 0, 0⟩).height) :=
  ⟨by decide,
   C8_viewport_positive sampleEnv 1 ⟨0, 0, -5⟩
     [Event.SetWebviewSize 0 100, Event.SetWebviewSize (-3) (-3),
      Event.SetWebviewSize 640 480] none ⟨0, 0, 0, 0⟩ _ (by decide)⟩

/-- C9: `OnProcessMessageReceived` returns `true` (handled) exactly when the name of the
message equals the run-javascript-response kind.  Then its only effect is one call
`on_javascript_result_(webview_id_, runId, wasExecuted, isException, result,
isUndefined)` with the fields read from the message, in this order (for the fields
`7, true, false, "42", false` the callback receives exactly these); otherwise it has
no effect at all.  In both cases the handler fields are unchanged. -/
theorem C9_OnProcessMessageReceived (env : Env R) (h : Handler R) (browser : CefRefPtr)
    (frame : CefFrame) (source_process : Int) (message : CefProcessMessage) :
    ((OnProcessMessageReceived env h browser frame source_process message).1 = true ↔
      message.GetName = env.kFrameHostMsg_RunJavascriptResponse) ∧
    (message.GetName = env.kFrameHostMsg_RunJavascriptResponse →
      (OnProcessMessageReceived env h browser frame source_process message).2.2 =
        [⟨Effect.on_javascript_result h.webview_id_
            (env.Read_FrameHostMsg_RunJavascriptResponse message).js_run_id
            (env.Read_FrameHostMsg_RunJavascriptResponse message).was_executed
            (env.Read_FrameHostMsg_RunJavascriptResponse message).is_exception
            (env.Read_FrameHostMsg_RunJavascriptResponse message).js_result
            (env.Read_FrameHostMsg_RunJavascriptResponse message).is_undefined, h⟩]) ∧
    (message.GetName = env.kFrameHostMsg_RunJavascriptResponse →
      env.Read_FrameHostMsg_RunJavascriptResponse message = ⟨7, true, false, "42", false⟩ →
      (OnProcessMessageReceived env h browser frame source_process message).2.2.map
          (fun o => o.eff) =
        [Effect.on_javascript_result h.webview_id_ 7 true false "42" false]) ∧
    (message.GetName ≠ env.kFrameHostMsg_RunJavascriptResponse →
      (OnProcessMessageReceived env h browser frame source_process message).2.2 = []) ∧
    (OnProcessMessageReceived env h browser frame source_process message).2.1 = h := by
  by_cases hk : message.GetName = env.kFrameHostMsg_RunJavascriptResponse
  · refine ⟨?_, ?_, ?_, ?_, ?_⟩
    · simp [OnProcessMessageReceived, hk]
    · intro _
      simp [OnProcessMessageReceived, hk]
    · intro _ hr
      simp [OnProcessMessageReceived, hk, hr]
    · intro hn
      exact absurd hk hn
    · simp [OnProcessMessageReceived, hk]
  · refine ⟨?_, ?_, ?_, ?_, ?_⟩
    · simp [OnProcessMessageReceived, hk]
    · intro hn
      exact absurd hn hk
    · intro hn
      exact absurd hn hk
    · intro _
      simp [OnProcessMessageReceived, hk]
    · simp [OnProcessMessageReceived, hk]

/-- C9 witness: the sample message `7, true, false, "42", false` of the recognised
kind, received by the sample `Ready` handler (session 1). -/
theorem C9_OnProcessMessageReceived_witness :
    sampleMessage.GetName = sampleEnv.kFrameHostMsg_RunJavascriptResponse ∧
    sampleEnv.Read_FrameHostMsg_RunJavascriptResponse sampleMessage =
      ⟨7, true, false, "42", false⟩ ∧
    (OnProcessMessageReceived sampleEnv sampleReady (some 5) mainFrame 0 sampleMessage).1
      = true ∧
    (OnProcessMessageReceived sampleEnv sampleReady (some 5) mainFrame 0
        sampleMessage).2.2.map (fun o => o.eff) =
      [Effect.on_javascript_result sampleReady.webview_id_ 7 true false "42" false] ∧
    (OnProcessMessageReceived sampleEnv sampleReady (some 5) mainFrame 0
        ⟨"SomethingElse", []⟩).2.2 = [] :=
  ⟨rfl, rfl,
   (C9_OnProcessMessageReceived sampleEnv sampleReady (some 5) mainFrame 0
      sampleMessage).1.mpr rfl,
   (C9_OnProcessMessageReceived sampleEnv sampleReady (some 5) mainFrame 0
      sampleMessage).2.2.1 rfl rfl,
   (C9_OnProcessMessageReceived sampleEnv sampleReady (some 5) mainFrame 0
      ⟨"SomethingElse", []⟩).2.2.2.1 (by decide)⟩

/-- C10: for every `OnPaint` call the effects are exactly, in this order:
`on_paint_begin_(webview_id_)` (before the renderer has composed the buffer), the
renderer's composition of the buffer, one `Invalidate(PET_POPUP)` request if and only
if the element type is `PET_VIEW` and the renderer's popup rectangle is non-empty after
the composition, and `on_paint_end_(webview_id_)`.  Begin and end are each emitted
exactly once; no invalidate is requested for a popup-type frame or an empty popup
rectangle. -/
theorem C10_OnPaint (env : Env R) (h : Handler R) (browser : Browser)
    (type : PaintElementType) (dirtyRects : List CefRect) (buffer : Buffer)
    (width height : Int) :
    (OnPaint env h browser type dirtyRects buffer width height).1 =
      { h with renderer_ :=
          env.renderer_OnPaint h.renderer_ browser type dirtyRects buffer width height } ∧
    (OnPaint env h browser type dirtyRects buffer width height).2.map (fun o => o.eff) =
      [Effect.on_paint_begin h.webview_id_,
       Effect.renderer_OnPaint browser type dirtyRects buffer width height] ++
      (if type = PaintElementType.PET_VIEW ∧
          (env.renderer_popup_rect (env.renderer_OnPaint h.renderer_ browser type
            dirtyRects buffer width height)).IsEmpty = false
        then [Effect.host_Invalidate browser PaintElementType.PET_POPUP] else []) ++
      [Effect.on_paint_end h.webview_id_] ∧
    (OnPaint env h browser type dirtyRects buffer width height).2.head? =
      some ⟨Effect.on_paint_begin h.webview_id_, h⟩ ∧
    ((OnPaint env h browser type dirtyRects buffer width height).2.map
      (fun o => o.eff)).count (Effect.on_paint_begin h.webview_id_) = 1 ∧
    ((OnPaint env h browser type dirtyRects buffer width height).2.map
      (fun o => o.eff)).count (Effect.on_paint_end h.webview_id_) = 1 ∧
    ((OnPaint env h browser type dirtyRects buffer width height).2.map
      (fun o => o.eff)).count (Effect.host_Invalidate browser PaintElementType.PET_POPUP) =
      (if type = PaintElementType.PET_VIEW ∧
          (env.renderer_popup_rect (env.renderer_OnPaint h.renderer_ browser type
            dirtyRects buffer width height)).IsEmpty = false
        then 1 else 0) := by
  have hfx : (OnPaint env h browser type dirtyRects buffer width height).2.map
      (fun o => o.eff) =
      [Effect.on_paint_begin h.webview_id_,
       Effect.renderer_OnPaint browser type dirtyRects buffer width height] ++
      (if type = PaintElementType.PET_VIEW ∧
          (env.renderer_popup_rect (env.renderer_OnPaint h.renderer_ browser type
            dirtyRects buffer width height)).IsEmpty = false
        then [Effect.host_Invalidate browser PaintElementType.PET_POPUP] else []) ++
      [Effect.on_paint_end h.webview_id_] := by
    unfold OnPaint
    simp only [Bool.not_eq_true]
    split <;> simp
  refine ⟨rfl, hfx, rfl, ?_, ?_, ?_⟩
  · rw [hfx]
    split <;> simp [List.count_cons]
  · rw [hfx]
    split <;> simp [List.count_cons]
  · rw [hfx]
    split <;> simp [List.count_cons]

/-- C11: for every popup request `OnBeforePopup` returns `true` (popup creation
denied), issues exactly one `LoadURL(url)` on the parent browser's main frame when the
url is non-empty and no load request when it is empty, has no other effect, and leaves
the handler fields unchanged.  (The popup features, window info, client and settings
arguments are not read by the method.) -/
theorem C11_OnBeforePopup (h : Handler R) (parentBrowser : Browser) (url : String) :
    (OnBeforePopup h parentBrowser url).1 = true ∧
    (OnBeforePopup h parentBrowser url).2.1 = h ∧
    (OnBeforePopup h parentBrowser url).2.2.map (fun o => o.eff) =
      (if url = "" then [] else [Effect.mainFrame_LoadURL parentBrowser url]) ∧
    ((OnBeforePopup h parentBrowser url).2.2.map (fun o => o.eff)).count
        (Effect.mainFrame_LoadURL parentBrowser url) = (if url = "" then 0 else 1) := by
  have hfx : (OnBeforePopup h parentBrowser url).2.2.map (fun o => o.eff) =
      (if url = "" then [] else [Effect.mainFrame_LoadURL parentBrowser url]) := by
    by_cases hu : url = ""
    · subst hu
      simp [OnBeforePopup, String.isEmpty_iff]
    · have hne : ¬ (url.isEmpty = true) := fun he => hu ((String.isEmpty_iff url).mp he)
      simp [OnBeforePopup, hne, hu]
  refine ⟨rfl, rfl, hfx, ?_⟩
  rw [hfx]
  split <;> simp

/-- C12 (as stated, refuted): on the sample `Closed` handler (null handle, viewport
800 x 600) `SetWebviewSize(640, 480)` replaces the stored viewport, `OnAfterCreated`
stores the browser and moves the state to `Created`, and `CloseBrowser` faults at
`browser_->GetHost()`. -/
theorem C12_closed_not_inert :
    sampleClosed.browser_state_ = BrowserState.kClosed ∧
    sampleClosed.browser_ = none ∧
    (sampleClosed.webview_width_, sampleClosed.webview_height_) = (800, 600) ∧
    ((SetWebviewSize sampleClosed 640 480).1.webview_width_,
      (SetWebviewSize sampleClosed 640 480).1.webview_height_) = (640, 480) ∧
    ((OnAfterCreated sampleClosed (some 6)).1.browser_state_,
      (OnAfterCreated sampleClosed (some 6)).1.browser_) =
        (BrowserState.kCreated, some 6) ∧
    CloseBrowser sampleClosed (some 9) = none := by
  refine ⟨?_, ?_, ?_, ?_, ?_, ?_⟩ <;> decide

/-- C12 (amended): on every handler whose state is `Closed` with a null handle, each
of `SetWebviewSize`, `OnAfterCreated`, `OnBeforeClose`, `OnLoadStart`, `OnLoadError`
completes.  `SetWebviewSize` with a non-positive argument, `OnBeforeClose`,
`OnLoadStart` and `OnLoadError` leave every field (lifecycle state, handle, viewport)
as it was; `SetWebviewSize` with positive arguments replaces the stored viewport and
nothing else; `OnAfterCreated` stores the given browser, sets the state to `Created`
and changes nothing else. -/
theorem C12_closed_operations (env : Env R) (h : Handler R)
    (hst : h.browser_state_ = BrowserState.kClosed) (hb : h.browser_ = none) :
    (∀ e : Event, e.isCloseBrowser = false → ∃ h1 fx, step env h e = some (h1, fx)) ∧
    (∀ w ht : Int, w ≤ 0 ∨ ht ≤ 0 → (SetWebviewSize h w ht).1 = h) ∧
    (∀ w ht : Int, 0 < w → 0 < ht →
      (SetWebviewSize h w ht).1 = { h with webview_width_ := w, webview_height_ := ht }) ∧
    (∀ b, (OnBeforeClose h b).1 = h) ∧
    (∀ b f t, (OnLoadStart h b f t).1 = h) ∧
    (∀ b f c t u, (OnLoadError h b f c t u).1 = h) ∧
    (∀ b, (OnAfterCreated h b).1 =
      { h with browser_ := b, browser_state_ := BrowserState.kCreated }) := by
  obtain ⟨cb, id, st, br, rd, w0, ht0⟩ := h
  simp only at hst hb
  subst hst hb
  refine ⟨?_, ?_, ?_, ?_, ?_, ?_, ?_⟩
  · intro e he
    cases e with
    | CloseBrowser c => simp [Event.isCloseBrowser] at he
    | _ => exact ⟨_, _, rfl⟩
  · intro w ht hbad
    simp [SetWebviewSize, hbad]
  · intro w ht hw hh
    have hgood : ¬ (w ≤ 0 ∨ ht ≤ 0) := by omega
    simp [SetWebviewSize, hgood]
  · intro b
    cases cb <;> rfl
  · intro b f t
    cases hf : f.IsMain <;> simp [OnLoadStart, hf]
  · intro b f c t u
    cases hf : f.IsMain <;> simp [OnLoadError, hf]
  · intro b
    rfl

/-- C12 witness: the sample `Closed` handler receiving `OnBeforeClose` and a resize. -/
theorem C12_closed_operations_witness :
    sampleClosed.browser_state_ = BrowserState.kClosed ∧
    sampleClosed.browser_ = none ∧
    (OnBeforeClose sampleClosed (some 5)).1 = sampleClosed ∧
    (SetWebviewSize sampleClosed 640 480).1 =
      { sampleClosed with webview_width_ := 640, webview_height_ := 480 } :=
  ⟨by decide, by decide,
   (C12_closed_operations sampleEnv sampleClosed (by decide) (by decide)).2.2.2.1 (some 5),
   (C12_closed_operations sampleEnv sampleClosed (by decide) (by decide)).2.2.1 640 480
     (by decide) (by decide)⟩

/-- C13 (as stated, refuted): a load error of a sub-frame delivered to a handler in
state `Created` moves the state to `Ready` and invokes `on_browser_ready_`. -/
theorem C13_subframe_error_readies :
    sampleCreated.browser_state_ = BrowserState.kCreated ∧
    subFrame.IsMain = false ∧
    (OnLoadError sampleCreated (some 5) subFrame (-3) "ERR_ABORTED"
      "https://example.com/ad").1.browser_state_ = BrowserState.kReady ∧
    (OnLoadError sampleCreated (some 5) subFrame (-3) "ERR_ABORTED"
      "https://example.com/ad").2.map (fun o => o.eff) = [Effect.on_browser_ready] := by
  refine ⟨?_, ?_, ?_, ?_⟩ <;> decide

/-- C13 (amended): for every handler in state `Created`, an `OnLoadStart` whose frame
is not the main frame leaves the state `Created` and invokes nothing; a main-frame
`OnLoadStart` and an `OnLoadError` of any frame move the state to `Ready` and invoke
`on_browser_ready_` once; and no other event moves the state to `Ready`. -/
theorem C13_ready_drivers (env : Env R) (h : Handler R)
    (hst : h.browser_state_ = BrowserState.kCreated) :
    (∀ b f t, f.IsMain = false →
      (OnLoadStart h b f t).1.browser_state_ = BrowserState.kCreated ∧
      (OnLoadStart h b f t).2 = []) ∧
    (∀ b f t, f.IsMain = true →
      (OnLoadStart h b f t).1.browser_state_ = BrowserState.kReady ∧
      readyCount (OnLoadStart h b f t).2 = 1) ∧
    (∀ b f c t u,
      (OnLoadError h b f c t u).1.browser_state_ = BrowserState.kReady ∧
      readyCount (OnLoadError h b f c t u).2 = 1) ∧
    (∀ e h1 fx, step env h e = some (h1, fx) →
      h1.browser_state_ = BrowserState.kReady → e.isReadyTrigger = true) := by
  refine ⟨?_, ?_, ?_, ?_⟩
  · intro b f t hf
    simp [OnLoadStart, hf, hst]
  · intro b f t hf
    simp [OnLoadStart, hf, hst, readyCount]
  · intro b f c t u
    cases hf : f.IsMain <;> simp [OnLoadError, hf, hst, readyCount]
  · intro e h1 fx hs hr
    have hf := (step_fields env h h1 fx e hs).2.2.2.2
    rw [hr, hst] at hf
    clear hs
    cases e with
    | OnLoadStart b f t =>
      cases hm : f.IsMain with
      | true => simp [Event.isReadyTrigger, hm]
      | false => simp [Event.nextState, hm] at hf
    | OnLoadError b f c t u => rfl
    | _ => simp [Event.nextState] at hf

/-- C13 witness: the sample `Created` handler receiving a sub-frame load start, then a
sub-frame load error. -/
theorem C13_ready_drivers_witness :
    sampleCreated.browser_state_ = BrowserState.kCreated ∧
    ((OnLoadStart sampleCreated (some 5) subFrame 0).1.browser_state_ =
        BrowserState.kCreated ∧
      (OnLoadStart sampleCreated (some 5) subFrame 0).2 = []) ∧
    ((OnLoadError sampleCreated (some 5) subFrame (-3) "ERR_ABORTED"
        "https://example.com/ad").1.browser_state_ = BrowserState.kReady ∧
      readyCount (OnLoadError sampleCreated (some 5) subFrame (-3) "ERR_ABORTED"
        "https://example.com/ad").2 = 1) :=
  ⟨by decide,
   (C13_ready_drivers sampleEnv sampleCreated (by decide)).1 (some 5) subFrame 0 (by decide),
   (C13_ready_drivers sampleEnv sampleCreated (by decide)).2.2.1 (some 5) subFrame (-3)
     "ERR_ABORTED" "https://example.com/ad"⟩

/-- C14: for every event sequence delivered to a freshly constructed handler in which
no `OnAfterCreated` passes a null browser, every handler observed (after construction
and after each delivered event) stores a non-null browser handle if and only if its
state is `Created`, `Ready` or `Closing`. -/
theorem C14_handle_iff_live (env : Env R) (id : WebviewId)
    (params : WebviewCreationParams) (es : List Event)
    (hnn : ∀ e ∈ es, e.isNullCreated = false) :
    ∀ h ∈ exec env (FlutterWebviewHandler env id params).1 es,
      (h.browser_ ≠ none ↔
        (h.browser_state_ = BrowserState.kCreated ∨
         h.browser_state_ = BrowserState.kReady ∨
         h.browser_state_ = BrowserState.kClosing)) := by
  intro h hm
  have hfresh : handleIffLive (FlutterWebviewHandler env id params).1 := by
    unfold handleIffLive
    rw [(fresh_state env id params).1, (fresh_state env id params).2.1]
    simp [BrowserState.isLive]
  have hinv : handleIffLive h :=
    exec_invariant env handleIffLive (fun e => e.isNullCreated = false)
      (fun g g1 fx e hs hq hp => step_handleIffLive env g g1 fx e hs hq hp)
      es _ hfresh hnn h hm
  unfold handleIffLive at hinv
  rw [hinv]
  cases h.browser_state_ <;> simp [BrowserState.isLive]

/-- C14 witness: after `OnAfterCreated(5)`, a main-frame load start and
`CloseBrowser(9)`, the observed handler is `Closing` and still holds browser 5. -/
theorem C14_handle_iff_live_witness :
    (∀ e ∈ [Event.OnAfterCreated (some 5), Event.OnLoadStart (some 5) mainFrame 0,
        Event.CloseBrowser (some 9)], e.isNullCreated = false) ∧
    sampleClosing ∈
      exec sampleEnv (FlutterWebviewHandler sampleEnv 1 ⟨0, 800, 600⟩).1
        [Event.OnAfterCreated (some 5), Event.OnLoadStart (some 5) mainFrame 0,
         Event.CloseBrowser (some 9)] ∧
    sampleClosing.browser_ = some 5 ∧
    (sampleClosing.browser_ ≠ none ↔
      (sampleClosing.browser_state_ = BrowserState.kCreated ∨
       sampleClosing.browser_state_ = BrowserState.kReady ∨
       sampleClosing.browser_state_ = BrowserState.kClosing)) :=
  ⟨by decide, by decide, by decide,
   C14_handle_iff_live sampleEnv 1 ⟨0, 800, 600⟩
     [Event.OnAfterCreated (some 5), Event.OnLoadStart (some 5) mainFrame 0,
      Event.CloseBrowser (some 9)] (by decide) sampleClosing (by decide)⟩

/-- C15: for every `OnLoadStart`: on the main frame in state `Created` the effects are
exactly `on_browser_ready_()` followed by `on_page_started_(webview_id_, url)` and the
state becomes `Ready`, nothing else changing; on the main frame in any other state the
only effect is `on_page_started_(webview_id_, url)` and the handler is unchanged; on
another frame there is no effect and the handler is unchanged. -/
theorem C15_OnLoadStart (h : Handler R) (browser : CefRefPtr) (frame : CefFrame)
    (transition_type : Int) :
    (frame.IsMain = true → h.browser_state_ = BrowserState.kCreated →
      (OnLoadStart h browser frame transition_type).2.map (fun o => o.eff) =
        [Effect.on_browser_ready, Effect.on_page_started h.webview_id_ frame.GetURL] ∧
      (OnLoadStart h browser frame transition_type).1 =
        { h with browser_state_ := BrowserState.kReady }) ∧
    (frame.IsMain = true → h.browser_state_ ≠ BrowserState.kCreated →
      (OnLoadStart h browser frame transition_type).2.map (fun o => o.eff) =
        [Effect.on_page_started h.webview_id_ frame.GetURL] ∧
      (OnLoadStart h browser frame transition_type).1 = h) ∧
    (frame.IsMain = false →
      (OnLoadStart h browser frame transition_type).2 = [] ∧
      (OnLoadStart h browser frame transition_type).1 = h) := by
  refine ⟨?_, ?_, ?_⟩
  · intro hf hst
    simp [OnLoadStart, hf, hst]
  · intro hf hst
    simp [OnLoadStart, hf, hst]
  · intro hf
    simp [OnLoadStart, hf]

/-- C15 witness: a main-frame load start on the sample `Created` handler, on the
sample `Ready` handler, and a sub-frame load start. -/
theorem C15_OnLoadStart_witness :
    ((OnLoadStart sampleCreated (some 5) mainFrame 0).2.map (fun o => o.eff) =
        [Effect.on_browser_ready,
         Effect.on_page_started sampleCreated.webview_id_ mainFrame.GetURL] ∧
      (OnLoadStart sampleCreated (some 5) mainFrame 0).1 =
        { sampleCreated with browser_state_ := BrowserState.kReady }) ∧
    ((OnLoadStart sampleReady (some 5) mainFrame 0).2.map (fun o => o.eff) =
        [Effect.on_page_started sampleReady.webview_id_ mainFrame.GetURL] ∧
      (OnLoadStart sampleReady (some 5) mainFrame 0).1 = sampleReady) ∧
    ((OnLoadStart sampleCreated (some 5) subFrame 0).2 = [] ∧
      (OnLoadStart sampleCreated (some 5) subFrame 0).1 = sampleCreated) :=
  ⟨(C15_OnLoadStart sampleCreated (some 5) mainFrame 0).1 (by decide) (by decide),
   (C15_OnLoadStart sampleReady (some 5) mainFrame 0).2.1 (by decide) (by decide),
   (C15_OnLoadStart sampleCreated (some 5) subFrame 0).2.2 (by decide)⟩

/-- C16: `OnLoadEnd` does not depend on the HTTP status: for every handler, frame and
status codes `s1`, `s2` the two calls give the same effects and the same handler;
the effects are exactly one `on_page_finished_(webview_id_, url)` on the main frame
and none on another frame, and the handler is unchanged. -/
theorem C16_OnLoadEnd (h : Handler R) (browser : CefRefPtr) (frame : CefFrame)
    (s1 s2 : Int) :
    OnLoadEnd h browser frame s1 = OnLoadEnd h browser frame s2 ∧
    (OnLoadEnd h browser frame s1).1 = h ∧
    (frame.IsMain = true →
      (OnLoadEnd h browser frame s1).2.map (fun o => o.eff) =
        [Effect.on_page_finished h.webview_id_ frame.GetURL]) ∧
    (frame.IsMain = false → (OnLoadEnd h browser frame s1).2 = []) := by
  refine ⟨rfl, ?_, ?_, ?_⟩
  · cases hf : frame.IsMain <;> simp [OnLoadEnd, hf]
  · intro hf
    simp [OnLoadEnd, hf]
  · intro hf
    simp [OnLoadEnd, hf]

/-- C16 witness: status 200 and status 404 on the main frame, and a sub-frame. -/
theorem C16_OnLoadEnd_witness :
    OnLoadEnd sampleReady (some 5) mainFrame 200 =
      OnLoadEnd sampleReady (some 5) mainFrame 404 ∧
    (OnLoadEnd sampleReady (some 5) mainFrame 200).2.map (fun o => o.eff) =
      [Effect.on_page_finished sampleReady.webview_id_ mainFrame.GetURL] ∧
    (OnLoadEnd sampleReady (some 5) subFrame 200).2 = [] :=
  ⟨(C16_OnLoadEnd sampleReady (some 5) mainFrame 200 404).1,
   (C16_OnLoadEnd sampleReady (some 5) mainFrame 200 404).2.2.1 (by decide),
   (C16_OnLoadEnd sampleReady (some 5) subFrame 200 404).2.2.2 (by decide)⟩

/-- C17 (as stated, refuted): after `OnAfterCreated`, `CloseBrowser(9)` and
`OnBeforeClose` the handler is `Closed` and callback 9 is still stored. -/
theorem C17_callback_kept_when_closed :
    (exec sampleEnv sampleFresh
      [Event.OnAfterCreated (some 5), Event.CloseBrowser (some 9),
       Event.OnBeforeClose (some 5)]).map
        (fun h => (h.browser_state_, h.close_browser_cb_)) =
      [(BrowserState.kBeforeCreated, none), (BrowserState.kCreated, none),
       (BrowserState.kClosing, some 9), (BrowserState.kClosed, some 9)] := by
  decide

/-- C17 (amended): for every event sequence delivered to a freshly constructed handler
in which each `OnAfterCreated` arrives while the state is still `BeforeCreated` or
`Created`, every handler observed that stores a close-completion callback is in state
`Closing` or `Closed`.  The callback is not cleared when the state becomes `Closed`:
on every handler `OnBeforeClose` sets the state to `Closed` and leaves the stored
callback as it was, and no delivered event other than `CloseBrowser` changes the
stored callback. -/
theorem C17_callback_only_late (env : Env R) (id : WebviewId)
    (params : WebviewCreationParams) (es : List Event)
    (hc : createdOnlyEarly env (FlutterWebviewHandler env id params).1 es = true) :
    (∀ h ∈ exec env (FlutterWebviewHandler env id params).1 es,
      h.close_browser_cb_ ≠ none →
        h.browser_state_ = BrowserState.kClosing ∨
        h.browser_state_ = BrowserState.kClosed) ∧
    (∀ (g : Handler R) (b : CefRefPtr),
      (OnBeforeClose g b).1.browser_state_ = BrowserState.kClosed ∧
      (OnBeforeClose g b).1.close_browser_cb_ = g.close_browser_cb_) ∧
    (∀ (g g1 : Handler R) (fx : List (Obs R)) (e : Event),
      step env g e = some (g1, fx) → e.isCloseBrowser = false →
        g1.close_browser_cb_ = g.close_browser_cb_) := by
  refine ⟨?_, ?_, ?_⟩
  · intro h hm hne
    have hstart : (FlutterWebviewHandler env id params).1.close_browser_cb_ ≠ none →
        3 ≤ (FlutterWebviewHandler env id params).1.browser_state_.rank := by
      intro hn
      exact absurd (fresh_state env id params).2.2.1 hn
    have hr := exec_callback_late env es _ (fresh_closedNoHandle env id params) hstart hc
      h hm hne
    revert hr
    cases h.browser_state_ <;> simp [BrowserState.rank]
  · intro g b
    obtain ⟨cb, gid, st, br, rd, w, ht⟩ := g
    cases cb <;> exact ⟨rfl, rfl⟩
  · intro g g1 fx e hs hncl
    have hcb := (step_fields env g g1 fx e hs).2.1
    rw [hcb]
    clear hs hcb
    cases e with
    | CloseBrowser c => simp [Event.isCloseBrowser] at hncl
    | _ => rfl

/-- C17 witness: the run `OnAfterCreated, OnLoadStart, CloseBrowser(9)` meets the
proviso and its last observed handler, the sample `Closing` handler, stores callback 9;
`OnBeforeClose` then makes it `Closed` with callback 9 still stored. -/
theorem C17_callback_only_late_witness :
    createdOnlyEarly sampleEnv (FlutterWebviewHandler sampleEnv 1 ⟨0, 800, 600⟩).1
      [Event.OnAfterCreated (some 5), Event.OnLoadStart (some 5) mainFrame 0,
       Event.CloseBrowser (some 9)] = true ∧
    sampleClosing.close_browser_cb_ = some 9 ∧
    (sampleClosing.browser_state_ = BrowserState.kClosing ∨
      sampleClosing.browser_state_ = BrowserState.kClosed) ∧
    ((OnBeforeClose sampleClosing (some 5)).1.browser_state_ = BrowserState.kClosed ∧
      (OnBeforeClose sampleClosing (some 5)).1.close_browser_cb_ =
        sampleClosing.close_browser_cb_) :=
  ⟨by decide, by decide,
   (C17_callback_only_late sampleEnv 1 ⟨0, 800, 600⟩
     [Event.OnAfterCreated (some 5), Event.OnLoadStart (some 5) mainFrame 0,
      Event.CloseBrowser (some 9)] (by decide)).1 sampleClosing (by decide) (by decide),
   (C17_callback_only_late sampleEnv 1 ⟨0, 800, 600⟩
     [Event.OnAfterCreated (some 5), Event.OnLoadStart (some 5) mainFrame 0,
      Event.CloseBrowser (some 9)] (by decide)).2.1 sampleClosing (some 5)⟩

/-- C18: for every event sequence delivered to a freshly constructed handler the number
of `on_browser_ready_` invocations is at most the number of `OnAfterCreated` events of
the sequence; an event invokes `on_browser_ready_` only when it moves the state from
`Created` to `Ready`; and an event leaves the state `Created` only when the state
already was `Created` or the event is `OnAfterCreated`. -/
theorem C18_ready_le_created (env : Env R) (id : WebviewId)
    (params : WebviewCreationParams) (es : List Event) :
    readyCount (effects env (FlutterWebviewHandler env id params).1 es) ≤
      es.countP (fun e => e.isOnAfterCreated) ∧
    (∀ (h h1 : Handler R) (fx : List (Obs R)) (e : Event),
      step env h e = some (h1, fx) → 0 < readyCount fx →
        h.browser_state_ = BrowserState.kCreated ∧
        h1.browser_state_ = BrowserState.kReady) ∧
    (∀ (h h1 : Handler R) (fx : List (Obs R)) (e : Event),
      step env h e = some (h1, fx) → h1.browser_state_ = BrowserState.kCreated →
        h.browser_state_ = BrowserState.kCreated ∨ e.isOnAfterCreated = true) := by
  refine ⟨?_, ?_, ?_⟩
  · have hle := readyCount_le_created env es (FlutterWebviewHandler env id params).1
    rw [(fresh_state env id params).1] at hle
    simpa using hle
  · intro h h1 fx e hs hpos
    obtain ⟨hcount, hready⟩ := step_readyCount env h h1 fx e hs
    by_cases ht : h.browser_state_ = BrowserState.kCreated ∧ e.isReadyTrigger = true
    · exact ⟨ht.1, hready ht⟩
    · rw [hcount, if_neg ht] at hpos
      exact absurd hpos (Nat.lt_irrefl 0)
  · intro h h1 fx e hs h1c
    have hst := (step_fields env h h1 fx e hs).2.2.2.2
    rw [hst] at h1c
    clear hs hst
    cases e with
    | OnAfterCreated b => exact Or.inr rfl
    | OnLoadStart b f t =>
      simp only [Event.nextState] at h1c
      split at h1c
      · cases h1c
      · exact Or.inl h1c
    | OnLoadError b f c t u =>
      simp only [Event.nextState] at h1c
      split at h1c
      · cases h1c
      · exact Or.inl h1c
    | CloseBrowser c => cases h1c
    | OnBeforeClose b => cases h1c
    | _ => exact Or.inl h1c

/-- C18 witness: two load events before `OnAfterCreated`, then `OnAfterCreated` and two
more load events: one ready notification, one `OnAfterCreated`. -/
theorem C18_ready_le_created_witness :
    readyCount (effects sampleEnv (FlutterWebviewHandler sampleEnv 1 ⟨0, 800, 600⟩).1
      [Event.OnLoadStart (some 5) mainFrame 0,
       Event.OnLoadError (some 5) mainFrame (-3) "ERR_ABORTED" "https://example.com/",
       Event.OnAfterCreated (some 5), Event.OnLoadStart (some 5) mainFrame 0,
       Event.OnLoadError (some 5) mainFrame (-3) "ERR_ABORTED" "https://example.com/"]) = 1 ∧
    readyCount (effects sampleEnv (FlutterWebviewHandler sampleEnv 1 ⟨0, 800, 600⟩).1
      [Event.OnLoadStart (some 5) mainFrame 0,
       Event.OnLoadError (some 5) mainFrame (-3) "ERR_ABORTED" "https://example.com/",
       Event.OnAfterCreated (some 5), Event.OnLoadStart (some 5) mainFrame 0,
       Event.OnLoadError (some 5) mainFrame (-3) "ERR_ABORTED" "https://example.com/"]) ≤
      [Event.OnLoadStart (some 5) mainFrame 0,
       Event.OnLoadError (some 5) mainFrame (-3) "ERR_ABORTED" "https://example.com/",
       Event.OnAfterCreated (some 5), Event.OnLoadStart (some 5) mainFrame 0,
       Event.OnLoadError (some 5) mainFrame (-3) "ERR_ABORTED"
         "https://example.com/"].countP (fun e => e.isOnAfterCreated) ∧
    (sampleCreated.browser_state_ = BrowserState.kCreated ∧
      (OnLoadStart sampleCreated (some 5) mainFrame 0).1.browser_state_ =
        BrowserState.kReady) :=
  ⟨by decide,
   (C18_ready_le_created sampleEnv 1 ⟨0, 800, 600⟩ _).1,
   (C18_ready_le_created sampleEnv 1 ⟨0, 800, 600⟩ []).2.1 sampleCreated
     (OnLoadStart sampleCreated (some 5) mainFrame 0).1
     (OnLoadStart sampleCreated (some 5) mainFrame 0).2
     (Event.OnLoadStart (some 5) mainFrame 0) rfl (by decide)⟩

/-- C19: on a handler holding a browser handle, `CloseBrowser(cb1)` followed by
`CloseBrowser(cb2)` both complete and the second overwrites the stored callback: the
following `OnBeforeClose` invokes `on_before_close_` and then `cb2`, exactly once, and
does not invoke `cb1` (when `cb1` differs from `cb2`).  More generally, after any
completed run the effects of `OnBeforeClose` are `on_before_close_` followed by one
invocation of the callback passed to the most recent `CloseBrowser` of the run (none
when that callback is empty or when there was no `CloseBrowser` and none was stored). -/
theorem C19_last_callback_wins (env : Env R) (h : Handler R) (b : Browser)
    (cb1 cb2 : CallbackId) (browser : CefRefPtr) (hb : h.browser_ = some b) :
    (∃ h1 fx1 h2 fx2,
      CloseBrowser h (some cb1) = some (h1, fx1) ∧
      CloseBrowser h1 (some cb2) = some (h2, fx2) ∧
      (OnBeforeClose h2 browser).2.map (fun o => o.eff) =
        [Effect.on_before_close h.webview_id_ browser, Effect.close_browser_cb cb2] ∧
      ((OnBeforeClose h2 browser).2.map (fun o => o.eff)).count
        (Effect.close_browser_cb cb2) = 1 ∧
      (cb1 ≠ cb2 →
        Effect.close_browser_cb cb1 ∉ (OnBeforeClose h2 browser).2.map (fun o => o.eff))) ∧
    (∀ (es : List Event) (h1 : Handler R), deliver env h es = some h1 →
      (OnBeforeClose h1 browser).2.map (fun o => o.eff) =
        Effect.on_before_close h.webview_id_ browser ::
          (match lastCloseCallback h.close_browser_cb_ es with
            | some cb => [Effect.close_browser_cb cb]
            | none => [])) := by
  constructor
  · have e1 : CloseBrowser h (some cb1) = some
        ({ h with close_browser_cb_ := some cb1, browser_state_ := BrowserState.kClosing },
         [⟨Effect.host_CloseBrowser b false,
           { h with close_browser_cb_ := some cb1,
                    browser_state_ := BrowserState.kClosing }⟩]) := by
      simp [CloseBrowser, hb]
    have e2 : CloseBrowser
        { h with close_browser_cb_ := some cb1, browser_state_ := BrowserState.kClosing }
        (some cb2) = some
        ({ h with close_browser_cb_ := some cb2, browser_state_ := BrowserState.kClosing },
         [⟨Effect.host_CloseBrowser b false,
           { h with close_browser_cb_ := some cb2,
                    browser_state_ := BrowserState.kClosing }⟩]) := by
      simp [CloseBrowser, hb]
    refine ⟨_, _, _, _, e1, e2, ?_, ?_, ?_⟩
    · simp [OnBeforeClose]
    · simp [OnBeforeClose, List.count_cons]
    · intro hne
      simp [OnBeforeClose, hne]
  · intro es h1 hd
    obtain ⟨hcb, hid⟩ := deliver_callback env es h h1 hd
    rw [← hcb, ← hid]
    obtain ⟨cb, id, st, br, rd, w, ht⟩ := h1
    cases cb <;> rfl

/-- C19 witness: the sample `Ready` handler (browser 5) closed with callback 7 and then
with callback 9; `OnBeforeClose` invokes callback 9 only. -/
theorem C19_last_callback_wins_witness :
    sampleReady.browser_ = some 5 ∧
    deliver sampleEnv sampleReady
      [Event.CloseBrowser (some 7), Event.DoClose (some 5), Event.CloseBrowser (some 9),
       Event.DoClose (some 5)] = some sampleClosing ∧
    (OnBeforeClose sampleClosing (some 5)).2.map (fun o => o.eff) =
      Effect.on_before_close sampleReady.webview_id_ (some 5) ::
        (match lastCloseCallback sampleReady.close_browser_cb_
            [Event.CloseBrowser (some 7), Event.DoClose (some 5),
             Event.CloseBrowser (some 9), Event.DoClose (some 5)] with
          | some cb => [Effect.close_browser_cb cb]
          | none => []) ∧
    lastCloseCallback sampleReady.close_browser_cb_
      [Event.CloseBrowser (some 7), Event.DoClose (some 5),
       Event.CloseBrowser (some 9), Event.DoClose (some 5)] = some 9 :=
  ⟨by decide, by decide,
   (C19_last_callback_wins sampleEnv sampleReady 5 7 9 (some 5) (by decide)).2
     [Event.CloseBrowser (some 7), Event.DoClose (some 5), Event.CloseBrowser (some 9),
      Event.DoClose (some 5)] sampleClosing (by decide),
   by decide⟩

end FlutterLinuxWebview
